import Mathlib

/-!
Verification development for the experimentation / adaptive-assignment engine of the
Airline-Revenue-Optimization-System repository.  The engine is implemented twice in the
source: `src/common/feature/AdvancedExperimentFramework.py` (personalization experiments)
and `src/data_analytics/engines/ab_testing_engine.py` (standalone A/B testing engine).
Both are embedded shallowly below: Python objects become structures, mutating methods
become state-passing functions `State -> (result, State)`, Python `dict`s become
association lists in insertion order, Python floats become `ℚ` where the source only
does field arithmetic and `ℝ` where `math.sqrt` / `math.log` appear, `datetime.now()`
becomes an explicit `now : ℕ` argument, and the MD5-based hash
`int(hashlib.md5(s.encode()).hexdigest(), 16)` becomes an explicit function argument
`md5 : String → ℕ` (the embedding's claims hold for every such function).
Caught Python exceptions (`try`/`except` around each method body) are modelled by the
value the `except` branch returns, at the mutation state reached when the exception
would be raised.
-/

namespace ARO

/-- Experiment types of `AdvancedExperimentFramework.ExperimentType`. -/
inductive ExperimentType where
  | AB_TEST
  | MULTIVARIATE
  | MULTI_ARMED_BANDIT
  | FACTORIAL
  | PERSONALIZED
deriving DecidableEq

/-- Experiment statuses of `AdvancedExperimentFramework.ExperimentStatus`. -/
inductive ExperimentStatus where
  | DRAFT
  | SCHEDULED
  | RUNNING
  | PAUSED
  | COMPLETED
  | CANCELLED
deriving DecidableEq

/-- The fields of `UserContext` that the framework's logic actually reads
(`_is_user_eligible` and `_determine_user_segment`); the remaining fields of the Python
dataclass are opaque payload never consulted by the engine. -/
structure UserContext where
  user_id : String
  session_id : String
  loyalty_tier : Option String := none
  location : Option String := none
  booking_frequency : Option String := none
  preferred_class : Option String := none

/-- `VariantConfiguration` dataclass: identity, weight, opaque payload, and the mutable
counters.  `targeting_rules`/`exclusion_rules` are dead fields (never read) and omitted. -/
structure VariantConfiguration where
  id : String
  name : String
  description : String := ""
  weight : ℚ
  config : List (String × String) := []
  conversions : ℕ := 0
  impressions : ℕ := 0
  revenue : ℚ := 0
  reward_sum : ℚ := 0
  arm_pulls : ℕ := 0
  confidence : ℚ := 0

/-- `ExperimentMetrics` dataclass.  `statistical_significance` and `confidence_interval`
are `ℝ`-valued because their computation involves `math.sqrt`; all other fields are exact
ratios of counters.  Fields the source never assigns keep their default 0. -/
structure ExperimentMetrics where
  conversion_rate : ℚ := 0
  revenue_per_user : ℚ := 0
  statistical_significance : ℝ := 0
  confidence_interval : ℝ × ℝ := (0, 0)
  lift : ℚ := 0
  engagement_rate : ℚ := 0
  retention_rate : ℚ := 0
  customer_lifetime_value : ℚ := 0
  booking_completion_rate : ℚ := 0
  average_order_value : ℚ := 0
  ancillary_revenue : ℚ := 0
  customer_satisfaction : ℚ := 0

/-- The `targeting_criteria` dict: the three keys `_is_user_eligible` interprets
("loyalty_tier", "location", "new_users_only"); a missing key is `none`. -/
structure TargetingCriteriaMap where
  loyalty_tier : Option (List String) := none
  location : Option (List String) := none
  new_users_only : Option Bool := none

/-- One element of `self.conversion_events` (the `metadata` dict is opaque, omitted). -/
structure ConversionEvent where
  user_id : String
  variant_id : String
  conversion_type : String
  value : ℚ
  timestamp : ℕ

/-- The state of an `AdvancedExperiment` object.  Defaults mirror `__init__`:
status DRAFT, traffic allocation 1.0, minimum sample size 1000, bandit config
`{exploration_rate: 0.1, confidence_threshold: 0.95, update_frequency: 3600}`, guardrails
`{max_conversion_drop: 0.05, min_statistical_power: 0.8, auto_stop_on_significance: True}`.
`variants` is the insertion-ordered `dict` of variants; `participant_assignments` the
user → variant dict; `metrics_history` the list of results of `calculate_metrics`. -/
structure AdvancedExperiment where
  experiment_id : String
  name : String
  description : String := ""
  experiment_type : ExperimentType
  variants : List VariantConfiguration
  targeting_criteria : TargetingCriteriaMap := {}
  duration_days : ℕ := 14
  status : ExperimentStatus := ExperimentStatus.DRAFT
  start_time : Option ℕ := none
  end_time : Option ℕ := none
  traffic_allocation : ℚ := 1
  minimum_sample_size : ℕ := 1000
  exploration_rate : ℝ := 0.1
  confidence_threshold : ℚ := 0.95
  update_frequency : ℕ := 3600
  segment_strategies : List (String × String) := []
  max_conversion_drop : ℚ := 0.05
  min_statistical_power : ℚ := 0.8
  auto_stop_on_significance : Bool := true
  participant_assignments : List (String × String) := []
  conversion_events : List ConversionEvent := []
  metrics_history : List (List (String × ExperimentMetrics)) := []

/-- `self.variants[vid]` as a partial lookup: the dict keyed by variant id. -/
def findVariant (e : AdvancedExperiment) (vid : String) : Option VariantConfiguration :=
  e.variants.find? (fun v => v.id == vid)

/-- Python dict assignment `d[k] = v`: overwrite the existing key in place or append. -/
def assocInsert {α β : Type} [BEq α] (k : α) (v : β) : List (α × β) → List (α × β)
  | [] => [(k, v)]
  | (k', v') :: rest => if k' == k then (k, v) :: rest else (k', v') :: assocInsert k v rest

/-- `AdvancedExperiment._is_user_eligible`: each present targeting key must accept the
user.  Python's `x in list` is false when the attribute is `None`, and the
"new_users_only" rule rejects unless `booking_frequency == "first_time"`. -/
def isUserEligible (e : AdvancedExperiment) (u : UserContext) : Bool :=
  (match e.targeting_criteria.loyalty_tier with
   | none => true
   | some allowed =>
     match u.loyalty_tier with
     | none => false
     | some t => allowed.contains t) &&
  (match e.targeting_criteria.location with
   | none => true
   | some allowed =>
     match u.location with
     | none => false
     | some t => allowed.contains t) &&
  (match e.targeting_criteria.new_users_only with
   | none => true
   | some b => if b then u.booking_frequency == some "first_time" else true)

/-- `AdvancedExperiment._is_in_traffic_allocation`: bucket the MD5 hash of
`"{experiment_id}_{user_id}"` into [0,1) by `(hash % 100) / 100.0` and compare with the
traffic-allocation fraction. -/
def isInTrafficAllocation (md5 : String → ℕ) (e : AdvancedExperiment) (u : UserContext) :
    Bool :=
  decide (((md5 (e.experiment_id ++ "_" ++ u.user_id) % 100 : ℕ) : ℚ) / 100
            < e.traffic_allocation)

/-- The cumulative-weight walk inside `_get_random_assignment`: accumulate weights in
variant order and return the first variant whose cumulative weight reaches the drawn
value (`random_value <= cumulative_weight` in the source). -/
def cumulativeWalk (rv : ℚ) : ℚ → List VariantConfiguration → Option String
  | _, [] => none
  | acc, v :: rest =>
    if rv ≤ acc + v.weight then some v.id else cumulativeWalk rv (acc + v.weight) rest

/-- `AdvancedExperiment._get_random_assignment`: deterministic hash of
`"{experiment_id}_{user_id}_assignment"` bucketed by `(hash % 10000) / 10000.0`, then the
cumulative-weight walk, falling back to the first variant.  (On an empty variant list the
Python fallback `list(self.variants.keys())[0]` raises `IndexError`, which the caller's
`except` turns into `None`; that is modelled by the empty-string sentinel, which
`assign_variant` treats as falsy.) -/
def getRandomAssignment (md5 : String → ℕ) (e : AdvancedExperiment) (u : UserContext) :
    String :=
  let rv : ℚ :=
    ((md5 (e.experiment_id ++ "_" ++ u.user_id ++ "_assignment") % 10000 : ℕ) : ℚ) / 10000
  match cumulativeWalk rv 0 e.variants with
  | some vid => vid
  | none => ((e.variants.head?).map (fun v => v.id)).getD ""

/-- The UCB score of one arm inside `_get_bandit_assignment`:
`reward_sum/arm_pulls + exploration_rate * sqrt(2*ln(total_pulls)/arm_pulls)`. -/
noncomputable def ucbScore (total_pulls : ℕ) (er : ℝ) (v : VariantConfiguration) : ℝ :=
  (v.reward_sum : ℝ) / (v.arm_pulls : ℝ)
    + er * Real.sqrt (2 * Real.log (total_pulls : ℝ) / (v.arm_pulls : ℝ))

/-- The scoring loop of `_get_bandit_assignment`: an arm with zero pulls is returned
immediately (Python `return variant_id`); otherwise the best strictly-greater UCB score
wins, earliest first (`best_score` starts at `-inf`, modelled by the `none` state). -/
noncomputable def ucbScan (total : ℕ) (er : ℝ) :
    Option (String × ℝ) → List VariantConfiguration → Option String
  | best, [] => best.map (fun p => p.1)
  | best, v :: rest =>
    if v.arm_pulls = 0 then some v.id
    else
      let s := ucbScore total er v
      match best with
      | none => ucbScan total er (some (v.id, s)) rest
      | some (bid, bs) =>
        if s > bs then ucbScan total er (some (v.id, s)) rest
        else ucbScan total er (some (bid, bs)) rest

/-- `AdvancedExperiment._get_bandit_assignment`: while `total_pulls < len(variants)*10`
the warm-up loop returns the first variant (in variant order) whose pull count is below
10; otherwise the UCB scoring loop runs, with `best_variant or list(keys)[0]` as final
fallback. -/
noncomputable def getBanditAssignment (e : AdvancedExperiment) : String :=
  let total := (e.variants.map (fun v => v.arm_pulls)).sum
  let warm :=
    if total < e.variants.length * 10 then e.variants.find? (fun v => v.arm_pulls < 10)
    else none
  match warm with
  | some v => v.id
  | none =>
    match ucbScan total e.exploration_rate none e.variants with
    | some vid => vid
    | none => ((e.variants.head?).map (fun v => v.id)).getD ""

/-- `AdvancedExperiment._determine_user_segment`. -/
def determineUserSegment (u : UserContext) : String :=
  if u.loyalty_tier == some "platinum" || u.loyalty_tier == some "diamond" then "high_value"
  else if u.booking_frequency == some "frequent" then "frequent_traveler"
  else if u.preferred_class == some "business" || u.preferred_class == some "first" then
    "business_traveler"
  else "leisure_traveler"

/-- `AdvancedExperiment._get_personalized_assignment`: a segment-specific override from
`segment_strategies` is returned directly, else fall back to the bandit selection. -/
noncomputable def getPersonalizedAssignment (e : AdvancedExperiment) (u : UserContext) :
    String :=
  match e.segment_strategies.lookup (determineUserSegment u) with
  | some vid => vid
  | none => getBanditAssignment e

/-- `AdvancedExperiment._get_variant_assignment`: dispatch on the experiment type. -/
noncomputable def getVariantAssignment (md5 : String → ℕ) (e : AdvancedExperiment)
    (u : UserContext) : String :=
  match e.experiment_type with
  | ExperimentType.MULTI_ARMED_BANDIT => getBanditAssignment e
  | ExperimentType.PERSONALIZED => getPersonalizedAssignment e u
  | _ => getRandomAssignment md5 e u

/-- The counter updates of `assign_variant` on the chosen variant: `impressions += 1`,
and `arm_pulls += 1` when the experiment is a multi-armed bandit. -/
def bumpImpressions (isBandit : Bool) (vid : String) (vs : List VariantConfiguration) :
    List VariantConfiguration :=
  vs.map (fun v =>
    if v.id == vid then
      { v with impressions := v.impressions + 1,
               arm_pulls := if isBandit then v.arm_pulls + 1 else v.arm_pulls }
    else v)

/-- `AdvancedExperiment.assign_variant`: return `none` unless the experiment is RUNNING,
the user is eligible and inside the traffic allocation; otherwise select a variant by
experiment type, record the sticky assignment, and increment the exposure counter (plus
the arm-pull counter for bandits).  An empty-string selection is Python's falsy-string
case (no tracking).  A selected id that is not a key of `variants` raises `KeyError` on
the `impressions` increment, caught by the method's `except`, which returns `None` with
the `participant_assignments` entry already written. -/
noncomputable def assignVariant (md5 : String → ℕ) (e : AdvancedExperiment)
    (u : UserContext) : Option String × AdvancedExperiment :=
  if e.status ≠ ExperimentStatus.RUNNING then (none, e)
  else if ¬ isUserEligible e u then (none, e)
  else if ¬ isInTrafficAllocation md5 e u then (none, e)
  else
    let vid := getVariantAssignment md5 e u
    if vid = "" then (none, e)
    else
      let e1 := { e with participant_assignments :=
                    assocInsert u.user_id vid e.participant_assignments }
      let isBandit : Bool := decide (e.experiment_type = ExperimentType.MULTI_ARMED_BANDIT)
      if e.variants.any (fun v => v.id == vid) then
        (some vid, { e1 with variants := bumpImpressions isBandit vid e1.variants })
      else (none, e1)

/-- `AdvancedExperiment._calculate_significance`: two-proportion Z-test of a variant
against the variant literally named "control".  Returns 0 when there is no control, when
the variant is the control, when either side is below the minimum sample size, when the
rates are equal, or when the standard error is 0.  `math.sqrt` of a negative argument
raises `ValueError`, caught by the method's `except`, returning 0 (the `seArg < 0`
branch).  The division when `minimum_sample_size = 0` and `impressions = 0` would raise
`ZeroDivisionError` (→ 0 via `except`) in Python; `ℚ` division by zero is 0, and the
claims only exercise a positive minimum sample size. -/
noncomputable def calculateSignificance (e : AdvancedExperiment) (vid : String) : ℝ :=
  match findVariant e "control", findVariant e vid with
  | some control, some variant =>
    if vid = "control" then 0
    else if variant.impressions < e.minimum_sample_size
            ∨ control.impressions < e.minimum_sample_size then 0
    else
      let p1 : ℚ := (variant.conversions : ℚ) / (variant.impressions : ℚ)
      let p2 : ℚ := (control.conversions : ℚ) / (control.impressions : ℚ)
      if p1 = p2 then 0
      else
        let pPool : ℚ := ((variant.conversions + control.conversions : ℕ) : ℚ)
                           / ((variant.impressions + control.impressions : ℕ) : ℚ)
        let seArg : ℚ := pPool * (1 - pPool)
                           * (1 / (variant.impressions : ℚ) + 1 / (control.impressions : ℚ))
        if seArg < 0 then 0
        else
          let se : ℝ := Real.sqrt (seArg : ℝ)
          if se = 0 then 0
          else
            let z : ℝ := |(p1 : ℝ) - (p2 : ℝ)| / se
            if z ≥ 2.58 then 0.99
            else if z ≥ 1.96 then 0.95
            else if z ≥ 1.65 then 0.90
            else z / 2.58 * 0.90
  | _, _ => 0

/-- `AdvancedExperiment._calculate_confidence_interval`: 95% normal-approximation
interval `p ± 1.96*sqrt(p(1-p)/n)` clipped to [0,1]; `(0,0)` with no impressions.  As in
`calculateSignificance`, a negative square-root argument is Python's caught `ValueError`
(→ `(0,0)`), reachable only when conversions exceed impressions. -/
noncomputable def calculateConfidenceInterval (e : AdvancedExperiment) (vid : String) :
    ℝ × ℝ :=
  match findVariant e vid with
  | none => (0, 0)
  | some v =>
    if v.impressions = 0 then (0, 0)
    else
      let p : ℚ := (v.conversions : ℚ) / (v.impressions : ℚ)
      let arg : ℚ := p * (1 - p) / (v.impressions : ℚ)
      if arg < 0 then (0, 0)
      else
        let margin : ℝ := 1.96 * Real.sqrt (arg : ℝ)
        (max 0 ((p : ℝ) - margin), min 1 ((p : ℝ) + margin))

/-- The per-variant body of `AdvancedExperiment.calculate_metrics`: basic rates,
significance and confidence interval once the minimum sample size is reached, business
metrics derived from the recorded conversion events, and lift versus the control. -/
noncomputable def variantMetrics (e : AdvancedExperiment) (v : VariantConfiguration) :
    ExperimentMetrics :=
  let rate : ℚ := if 0 < v.impressions then (v.conversions : ℚ) / (v.impressions : ℚ) else 0
  let rpu : ℚ := if 0 < v.impressions then v.revenue / (v.impressions : ℚ) else 0
  let sig : ℝ :=
    if e.minimum_sample_size ≤ v.impressions then calculateSignificance e v.id else 0
  let ci : ℝ × ℝ :=
    if e.minimum_sample_size ≤ v.impressions then calculateConfidenceInterval e v.id
    else (0, 0)
  let evs := e.conversion_events.filter (fun ev => ev.variant_id == v.id)
  let bookings := evs.filter (fun ev => ev.conversion_type == "booking_completed")
  let bcr : ℚ := if 0 < evs.length then (bookings.length : ℚ) / (evs.length : ℚ) else 0
  let aov : ℚ :=
    if 0 < evs.length ∧ 0 < bookings.length then
      (bookings.map (fun ev => ev.value)).sum / (bookings.length : ℚ)
    else 0
  let anc : ℚ :=
    if 0 < evs.length then
      ((evs.filter (fun ev => ev.conversion_type == "ancillary_purchase")).map
        (fun ev => ev.value)).sum
    else 0
  let lift : ℚ :=
    if v.id ≠ "control" then
      match findVariant e "control" with
      | some c =>
        let cr : ℚ := (c.conversions : ℚ) / ((max 1 c.impressions : ℕ) : ℚ)
        if 0 < cr then (rate - cr) / cr else 0
      | none => 0
    else 0
  { conversion_rate := rate, revenue_per_user := rpu, statistical_significance := sig,
    confidence_interval := ci, lift := lift, booking_completion_rate := bcr,
    average_order_value := aov, ancillary_revenue := anc }

/-- `AdvancedExperiment.calculate_metrics`: compute the per-variant metrics dict in
variant order and append a copy of it to `self.metrics_history` — the method's only
mutation of the experiment. -/
noncomputable def calculateMetrics (e : AdvancedExperiment) :
    List (String × ExperimentMetrics) × AdvancedExperiment :=
  let results := e.variants.map (fun v => (v.id, variantMetrics e v))
  (results, { e with metrics_history := e.metrics_history ++ [results] })

/-- One step of the winner loop in `get_winning_variant`: take a variant whose
statistical significance reaches 0.95 and whose conversion rate strictly exceeds the
best rate so far (`best_rate` starts at 0.0). -/
noncomputable def winnerStep (s : Option String × ℚ) (p : String × ExperimentMetrics) :
    Option String × ℚ :=
  if 0.95 ≤ p.2.statistical_significance ∧ s.2 < p.2.conversion_rate then
    (some p.1, p.2.conversion_rate)
  else s

/-- `AdvancedExperiment.get_winning_variant`: recompute the metrics (which appends to
`metrics_history`) and fold the winner loop over them. -/
noncomputable def getWinningVariant (e : AdvancedExperiment) :
    Option String × AdvancedExperiment :=
  let r := calculateMetrics e
  ((r.1.foldl winnerStep (none, 0)).1, r.2)

/-- `AdvancedExperiment.stop_experiment`: unconditionally set status COMPLETED and the
end timestamp, then compute final metrics and the winner (appending to
`metrics_history` twice) and return True.  The `reason` argument is only logged. -/
noncomputable def stopExperiment (e : AdvancedExperiment) (now : ℕ) (_reason : String) :
    Bool × AdvancedExperiment :=
  let e1 := { e with status := ExperimentStatus.COMPLETED, end_time := some now }
  let e2 := (calculateMetrics e1).2
  let e3 := (getWinningVariant e2).2
  (true, e3)

/-- `AdvancedExperiment._check_experiment_guardrails`: compute metrics; if a control
exists and some non-control variant's relative conversion drop exceeds
`max_conversion_drop`, stop the experiment; otherwise, when auto-stop is enabled and the
recomputed winner has the minimum sample size and significance at least 0.95, stop
early.  Both stop calls go through `stop_experiment`. -/
noncomputable def checkExperimentGuardrails (e : AdvancedExperiment) (now : ℕ) :
    AdvancedExperiment :=
  let r := calculateMetrics e
  let m := r.1
  let e1 := r.2
  let dropTrigger : Option String :=
    match m.lookup "control" with
    | none => none
    | some cm =>
      (m.find? (fun p =>
        p.1 != "control" && decide (0 < cm.conversion_rate) &&
          decide (e1.max_conversion_drop
                    < (cm.conversion_rate - p.2.conversion_rate) / cm.conversion_rate))).map
        (fun p => p.1)
  match dropTrigger with
  | some vid =>
    (stopExperiment e1 now ("Guardrail triggered: conversion drop in " ++ vid)).2
  | none =>
    if e1.auto_stop_on_significance then
      let w := getWinningVariant e1
      match w.1 with
      | some wv =>
        if (findVariant w.2 wv).elim false
             (fun v => w.2.minimum_sample_size ≤ v.impressions) then
          match m.lookup wv with
          | some wm =>
            if 0.95 ≤ wm.statistical_significance then
              (stopExperiment w.2 now ("Early stop: significance achieved for " ++ wv)).2
            else w.2
          | none => w.2
        else w.2
      | none => w.2
    else e1

/-- `AdvancedExperiment.track_conversion`: a user with no assignment (or an assignment
to an unknown variant id — a `KeyError` raised before any mutation, caught by the
method's `except`) yields False with the experiment unchanged.  Otherwise the conversion
event is appended, the variant's conversions and revenue counters are incremented (plus
`reward_sum` and the `_update_bandit_confidence` refresh for bandits), the guardrails
are checked, and True is returned.  The experiment status is never consulted. -/
noncomputable def trackConversion (e : AdvancedExperiment)
    (user_id conversion_type : String) (value : ℚ) (now : ℕ) :
    Bool × AdvancedExperiment :=
  match e.participant_assignments.lookup user_id with
  | none => (false, e)
  | some vid =>
    match findVariant e vid with
    | none => (false, e)
    | some _ =>
      let ev : ConversionEvent :=
        { user_id := user_id, variant_id := vid, conversion_type := conversion_type,
          value := value, timestamp := now }
      let isBandit : Bool := decide (e.experiment_type = ExperimentType.MULTI_ARMED_BANDIT)
      let vs := e.variants.map (fun v =>
        if v.id == vid then
          { v with conversions := v.conversions + 1,
                   revenue := v.revenue + value,
                   reward_sum := if isBandit then v.reward_sum + value else v.reward_sum,
                   confidence :=
                     if isBandit && decide (0 < v.arm_pulls) then
                       min (0.99 : ℚ) ((v.arm_pulls : ℚ) / ((v.arm_pulls : ℚ) + 100))
                     else v.confidence }
        else v)
      let e1 := { e with conversion_events := e.conversion_events ++ [ev], variants := vs }
      (true, checkExperimentGuardrails e1 now)

/-- `AdvancedExperiment._validate_configuration`: variant weights must sum to 1.0 within
tolerance 0.01, and there must be at least 2 variants. -/
def validateConfiguration (e : AdvancedExperiment) : Bool :=
  if 1 / 100 < |((e.variants.map (fun v => v.weight)).sum) - 1| then false
  else if e.variants.length < 2 then false
  else true

/-- `AdvancedExperiment.start_experiment`: validate (returning False with the experiment
unchanged on failure — no exception is raised), then set status RUNNING, record the
start and computed end timestamps (the end time is `now` plus the duration, the day
being the time unit of the embedding), and zero all variant counters. -/
def startExperiment (e : AdvancedExperiment) (now : ℕ) : Bool × AdvancedExperiment :=
  if ¬ validateConfiguration e then (false, e)
  else
    (true,
     { e with status := ExperimentStatus.RUNNING,
              start_time := some now,
              end_time := some (now + e.duration_days),
              variants := e.variants.map (fun v =>
                { v with impressions := 0, conversions := 0, revenue := 0,
                         arm_pulls := 0, reward_sum := 0 }) })

/-- One entry of the `config["variants"]` list consumed by
`PersonalizationExperimentManager.create_experiment`. -/
structure VariantSpec where
  id : String
  name : String
  description : String := ""
  weight : ℚ
  config : List (String × String) := []

/-- The experiment-configuration dict consumed by
`PersonalizationExperimentManager.create_experiment` (missing optional keys take the
`.get` defaults of the source). -/
structure ExperimentConfig where
  experiment_id : String
  name : String
  description : String := ""
  type : ExperimentType
  duration_days : ℕ := 14
  targeting : TargetingCriteriaMap := {}
  variants : List VariantSpec

/-- `PersonalizationExperimentManager.create_experiment`: build the
`VariantConfiguration` list and the `AdvancedExperiment` from the configuration.  No
weight validation is performed here — with structurally well-formed input (all required
keys present, as the `ExperimentConfig` record guarantees) the method always succeeds
and stores the experiment; weights are copied through exactly as given. -/
noncomputable def createExperiment (cfg : ExperimentConfig) : AdvancedExperiment :=
  { experiment_id := cfg.experiment_id, name := cfg.name, description := cfg.description,
    experiment_type := cfg.type, duration_days := cfg.duration_days,
    targeting_criteria := cfg.targeting,
    variants := cfg.variants.map (fun s =>
      { id := s.id, name := s.name, description := s.description, weight := s.weight,
        config := s.config }) }

/-- `AdvancedExperiment.get_variant_config`: thin wrapper over `assign_variant`
returning the chosen variant's opaque payload. -/
noncomputable def getVariantConfig (md5 : String → ℕ) (e : AdvancedExperiment)
    (u : UserContext) : Option (List (String × String)) × AdvancedExperiment :=
  let r := assignVariant md5 e u
  (match r.1 with
   | some vid => (findVariant r.2 vid).map (fun v => v.config)
   | none => none, r.2)

/-- The runtime operations of an `AdvancedExperiment`, for stating invariants over
arbitrary call sequences. -/
inductive ExperimentOp where
  | assign (md5 : String → ℕ) (u : UserContext)
  | track (user_id conversion_type : String) (value : ℚ) (now : ℕ)
  | stop (now : ℕ) (reason : String)
  | metrics
  | winner
  | getConfig (md5 : String → ℕ) (u : UserContext)

/-- Apply one operation to the experiment state, discarding the returned value. -/
noncomputable def applyOp (e : AdvancedExperiment) : ExperimentOp → AdvancedExperiment
  | ExperimentOp.assign md5 u => (assignVariant md5 e u).2
  | ExperimentOp.track uid ct v now => (trackConversion e uid ct v now).2
  | ExperimentOp.stop now r => (stopExperiment e now r).2
  | ExperimentOp.metrics => (calculateMetrics e).2
  | ExperimentOp.winner => (getWinningVariant e).2
  | ExperimentOp.getConfig md5 u => (getVariantConfig md5 e u).2

/-- Apply a sequence of operations in order. -/
noncomputable def applyOps (e : AdvancedExperiment) : List ExperimentOp → AdvancedExperiment
  | [] => e
  | op :: rest => applyOps (applyOp e op) rest

/-- The (id, arm-pull) view of an experiment's variants. -/
def pullsView (e : AdvancedExperiment) : List (String × ℕ) :=
  e.variants.map (fun v => (v.id, v.arm_pulls))

/-- Test statuses of `ab_testing_engine.TestStatus`. -/
inductive TestStatus where
  | DRAFT
  | RUNNING
  | PAUSED
  | COMPLETED
  | TERMINATED
deriving DecidableEq

/-- Test types of `ab_testing_engine.TestType`. -/
inductive TestType where
  | AB
  | MULTIVARIATE
  | BANDIT
  | SEQUENTIAL
deriving DecidableEq

/-- One entry of the `variants` list of a `TestConfiguration` (id and traffic split in
percent; the description is opaque). -/
structure EngineVariantSpec where
  id : String
  traffic_split : ℚ
  description : String := ""

/-- `ab_testing_engine.TestConfiguration`.  The loosely-typed `success_criteria` and
`rollback_criteria` dicts are represented by the two keys the engine reads:
`success_criteria["bandit_algorithm"]` (default "thompson_sampling") and
`rollback_criteria["min_conversion_rate_ratio"]` (default 0.8, field
`rollback_threshold` here because of the source key's name). -/
structure EngineTestConfiguration where
  test_id : String
  name : String
  test_type : TestType
  objective : String := ""
  target_metric : String
  traffic_allocation : ℚ
  min_sample_size : ℕ
  max_duration_days : ℕ
  statistical_power : ℚ
  confidence_level : ℚ
  variants : List EngineVariantSpec
  bandit_algorithm : Option String := none
  rollback_threshold : ℚ := 0.8

/-- The per-variant counter record `{'exposure': 0, 'conversions': 0, 'revenue': 0.0}`
stored in the test data. -/
structure VariantStats where
  exposure : ℕ := 0
  conversions : ℕ := 0
  revenue : ℚ := 0

/-- The JSON test record the engine stores in Redis under `test:{test_id}`. -/
structure TestData where
  config : EngineTestConfiguration
  status : TestStatus
  created_at : ℕ := 0
  started_at : Option ℕ := none
  required_sample_size : ℕ
  variants : List (String × VariantStats)
  stopped_at : Option ℕ := none
  stop_reason : Option String := none
  terminated_at : Option ℕ := none
  termination_reason : Option String := none

/-- The engine's Redis keyspace: the `test:{id}` records and the
`assignment:{test}:{user}` records ((test, user) → variant). -/
structure EngineState where
  tests : List (String × TestData) := []
  assignments : List ((String × String) × String) := []

/-- The randomness consumed by the engine's bandit algorithms, passed explicitly: the
`np.random.random()` draw of epsilon-greedy, the `np.random.choice` pick, and the
per-arm `np.random.beta(successes+1, trials-successes+1)` draw of Thompson sampling. -/
structure BanditOracle where
  unif : ℝ := 0
  pick : List String → String := fun l => l.headD ""
  beta : String → ℝ := fun _ => 0

/-- First-argument-maximum over `ℚ` keys: Python's `max(xs, key=...)`, which keeps the
earliest element on ties (replacement only on strictly greater key). -/
def firstArgmaxQ : (String × ℚ) → List (String × ℚ) → String
  | best, [] => best.1
  | best, q :: rest => if best.2 < q.2 then firstArgmaxQ q rest else firstArgmaxQ best rest

/-- First-argument-maximum over `ℝ` keys. -/
noncomputable def firstArgmaxR : (String × ℝ) → List (String × ℝ) → String
  | best, [] => best.1
  | best, q :: rest => if best.2 < q.2 then firstArgmaxR q rest else firstArgmaxR best rest

/-- Comparison of UCB values where `none` encodes Python's `float('inf')` (a zero-trial
arm): nothing exceeds infinity, infinity exceeds every finite value. -/
noncomputable def infValLt (a b : Option ℝ) : Bool :=
  match a, b with
  | none, _ => false
  | some _, none => true
  | some x, some y => decide (x < y)

/-- First-argument-maximum over `Option ℝ` keys with `none` as positive infinity. -/
noncomputable def firstArgmaxTop : (String × Option ℝ) → List (String × Option ℝ) → String
  | best, [] => best.1
  | best, q :: rest =>
    if infValLt best.2 q.2 then firstArgmaxTop q rest else firstArgmaxTop best rest

/-- `EpsilonGreedyBandit.select_arm` over arms `(arm_id, trials, successes)`: with
probability epsilon a random arm, otherwise the first arm maximizing
`successes / max(trials, 1)`. -/
noncomputable def epsilonGreedySelectArm (epsilon : ℝ) (o : BanditOracle)
    (arms : List (String × ℕ × ℕ)) : String :=
  if o.unif < epsilon then o.pick (arms.map (fun a => a.1))
  else
    match arms.map (fun a => (a.1, (a.2.2 : ℚ) / ((max a.2.1 1 : ℕ) : ℚ))) with
    | [] => ""
    | x :: xs => firstArgmaxQ x xs

/-- `ThompsonSamplingBandit.select_arm`: one Beta draw per arm (supplied by the oracle),
highest draw wins, earliest first.  (Python `max` on an empty list raises `ValueError`;
the empty case returns the sentinel "".) -/
noncomputable def thompsonSelectArm (o : BanditOracle) (arms : List (String × ℕ × ℕ)) :
    String :=
  match arms.map (fun a => (a.1, o.beta a.1)) with
  | [] => ""
  | x :: xs => firstArgmaxR x xs

/-- `UCBBandit.select_arm`: the first arm when no arm has trials; a zero-trial arm gets
value `float('inf')` (encoded `none`); otherwise
`successes/trials + sqrt(2*ln(total_trials)/trials)`; the first maximal arm wins. -/
noncomputable def ucbSelectArm (arms : List (String × ℕ × ℕ)) : String :=
  let total := (arms.map (fun a => a.2.1)).sum
  if total = 0 then ((arms.head?).map (fun a => a.1)).getD ""
  else
    match arms.map (fun a =>
      if a.2.1 = 0 then (a.1, (none : Option ℝ))
      else (a.1, some ((a.2.2 : ℝ) / (a.2.1 : ℝ)
                        + Real.sqrt (2 * Real.log (total : ℝ) / (a.2.1 : ℝ))))) with
    | [] => ""
    | x :: xs => firstArgmaxTop x xs

/-- The cumulative walk of `ABTestingEngine._static_assignment`
(`user_hash < cumulative`). -/
def engineStaticWalk (h : ℕ) : ℚ → List EngineVariantSpec → Option String
  | _, [] => none
  | acc, v :: rest =>
    if (h : ℚ) < acc + v.traffic_split then some v.id
    else engineStaticWalk h (acc + v.traffic_split) rest

/-- `ABTestingEngine._static_assignment`: Python's builtin `hash` of
`"{test_id}_{user_id}"` modulo 100 (the builtin hash is modelled by the explicit
`pyhash` argument), walked over the cumulative traffic splits, with the first variant as
fallback. -/
def engineStaticAssignment (pyhash : String → ℕ) (test_id user_id : String)
    (cfg : EngineTestConfiguration) : String :=
  let h := pyhash (test_id ++ "_" ++ user_id) % 100
  match engineStaticWalk h 0 cfg.variants with
  | some vid => vid
  | none => ((cfg.variants.head?).map (fun v => v.id)).getD ""

/-- `ABTestingEngine._bandit_assignment`: dispatch on
`success_criteria.get('bandit_algorithm', 'thompson_sampling')` over the arm snapshots
`(variant_id, exposure, conversions)`.  An unknown algorithm name raises `KeyError` in
Python (`self.bandit_algorithms[name]`); that uncaught-crash case is modelled by the
sentinel "". -/
noncomputable def engineBanditAssignment (o : BanditOracle) (td : TestData) : String :=
  let arms := td.variants.map (fun p => (p.1, p.2.exposure, p.2.conversions))
  match td.config.bandit_algorithm.getD "thompson_sampling" with
  | "epsilon_greedy" => epsilonGreedySelectArm 0.1 o arms
  | "thompson_sampling" => thompsonSelectArm o arms
  | "ucb" => ucbSelectArm arms
  | _ => ""

/-- `ABTestingEngine.assign_variant`: a missing test or a test whose status is not
RUNNING yields the literal string `'control'` ("Default fallback" in the source) without
touching any state; otherwise bandit or static assignment, after which the assignment
record is (over)written.  No exposure counter is incremented anywhere in the engine. -/
noncomputable def engineAssignVariant (st : EngineState) (o : BanditOracle)
    (pyhash : String → ℕ) (test_id user_id : String) : String × EngineState :=
  match st.tests.lookup test_id with
  | none => ("control", st)
  | some td =>
    if td.status ≠ TestStatus.RUNNING then ("control", st)
    else
      let variant :=
        if td.config.test_type = TestType.BANDIT then engineBanditAssignment o td
        else engineStaticAssignment pyhash test_id user_id td.config
      (variant,
       { st with assignments := assocInsert (test_id, user_id) variant st.assignments })

/-- `ABTestingEngine._stop_test`: unconditionally mark the test COMPLETED, recording
`stopped_at` and `stop_reason` (overwriting any previous values).  A missing test would
be a `TypeError` in Python (internal callers guarantee existence); modelled as a
no-op. -/
def engineStopTest (st : EngineState) (test_id : String) (now : ℕ) (reason : String) :
    EngineState :=
  match st.tests.lookup test_id with
  | none => st
  | some td =>
    let td1 := { td with status := TestStatus.COMPLETED, stopped_at := some now,
                         stop_reason := some reason }
    { st with tests := assocInsert test_id td1 st.tests }

/-- `ABTestingEngine._rollback_test`: unconditionally mark the test TERMINATED,
recording `terminated_at` and `termination_reason`. -/
def engineRollbackTest (st : EngineState) (test_id : String) (now : ℕ) (reason : String) :
    EngineState :=
  match st.tests.lookup test_id with
  | none => st
  | some td =>
    let td1 := { td with status := TestStatus.TERMINATED, terminated_at := some now,
                         termination_reason := some reason }
    { st with tests := assocInsert test_id td1 st.tests }

/-- `ABTestingEngine._check_rollback_criteria`: the first non-control variant with more
than 100 exposures whose conversion rate is below
`control_rate * min_conversion_rate_ratio` triggers a rollback.  (With zero control
exposures Python raises `ZeroDivisionError`; `ℚ` division by zero is 0 there.) -/
def engineCheckRollback (st : EngineState) (td : TestData) (test_id : String) (now : ℕ) :
    EngineState :=
  let offending := td.variants.find? (fun p =>
    p.1 != "control" && decide (100 < p.2.exposure) &&
      (match td.variants.lookup "control" with
       | some c =>
         decide ((p.2.conversions : ℚ) / (p.2.exposure : ℚ)
                   < ((c.conversions : ℚ) / (c.exposure : ℚ)) * td.config.rollback_threshold)
       | none => false))
  match offending with
  | some p =>
    engineRollbackTest st test_id now
      ("Variant " ++ p.1 ++ " conversion rate below threshold")
  | none => st

/-- `ABTestingEngine._check_early_stopping`: once the total exposures reach the required
sample size, analyze the test and stop on statistical significance; otherwise (and also
when the significance test fails) check the rollback criteria.
`analyze_test`'s significance comes from `scipy.stats.chi2_contingency`, whose p-value
is not expressible in closed form; it is passed as the explicit `pval` argument, and
significance requires exactly two variants and `pval < 1 - confidence_level` exactly as
`_test_statistical_significance` computes it. -/
noncomputable def engineCheckEarlyStopping (st : EngineState) (pval : ℝ)
    (test_id : String) (now : ℕ) : EngineState :=
  match st.tests.lookup test_id with
  | none => st
  | some td =>
    let total := (td.variants.map (fun p => p.2.exposure)).sum
    if td.required_sample_size ≤ total then
      if td.variants.length = 2 ∧ pval < 1 - td.config.confidence_level then
        engineStopTest st test_id now "Statistical significance achieved"
      else engineCheckRollback st td test_id now
    else engineCheckRollback st td test_id now

/-- `ABTestingEngine.record_conversion`: False when the test or the user's assignment is
missing (or the assigned variant id is not in the test's variant dict — a Python
`KeyError` before any mutation); otherwise increment the variant's conversions and
revenue, store the updated test, run the early-stopping check, and return True.  The
test status is never consulted. -/
noncomputable def engineRecordConversion (st : EngineState) (pval : ℝ)
    (test_id user_id : String) (_metric_value revenue : ℚ) (now : ℕ) :
    Bool × EngineState :=
  match st.tests.lookup test_id with
  | none => (false, st)
  | some td =>
    match st.assignments.lookup (test_id, user_id) with
    | none => (false, st)
    | some vid =>
      if ¬ (td.variants.any (fun p => p.1 == vid)) then (false, st)
      else
        let td1 := { td with variants := td.variants.map (fun p =>
          if p.1 == vid then
            (p.1, { p.2 with conversions := p.2.conversions + 1,
                             revenue := p.2.revenue + revenue })
          else p) }
        let st1 := { st with tests := assocInsert test_id td1 st.tests }
        (true, engineCheckEarlyStopping st1 pval test_id now)

/-- `ABTestingEngine._validate_test_config`: at least two variants, and traffic splits
summing to 100 within tolerance 0.1, else a `ValueError` (the error message). -/
def validateTestConfig (cfg : EngineTestConfiguration) : Except String Unit :=
  if cfg.variants.length < 2 then Except.error "At least 2 variants required"
  else if 1 / 10 < |((cfg.variants.map (fun v => v.traffic_split)).sum) - 100| then
    Except.error "Traffic splits must sum to 100%"
  else Except.ok ()

/-- `ABTestingEngine._calculate_confidence_interval`: normal-approximation interval for
`successes/trials` clipped to [0,1]; `(0,0)` for zero trials.  The critical value
`z = norm.ppf(1 - (1-confidence_level)/2)` has no closed form and is passed
explicitly. -/
noncomputable def engineConfidenceInterval (z : ℝ) (successes trials : ℕ) : ℝ × ℝ :=
  if trials = 0 then (0, 0)
  else
    let p : ℚ := (successes : ℚ) / (trials : ℚ)
    let margin : ℝ := z * Real.sqrt ((p : ℝ) * (1 - (p : ℝ)) / (trials : ℝ))
    (max 0 ((p : ℝ) - margin), min 1 ((p : ℝ) + margin))

/-- Repeated `assign_variant` calls with a fixed user, collecting the returned variants
in call order along with the final state. -/
noncomputable def runAssigns (md5 : String → ℕ) (u : UserContext) :
    AdvancedExperiment → ℕ → List (Option String) × AdvancedExperiment
  | e, 0 => ([], e)
  | e, n + 1 =>
    let r := assignVariant md5 e u
    let rest := runAssigns md5 u r.2 n
    (r.1 :: rest.1, rest.2)

/-- The exposure counter of the variant with the given id (0 if absent). -/
def impressionsOf (e : AdvancedExperiment) (vid : String) : ℕ :=
  ((findVariant e vid).map (fun v => v.impressions)).getD 0

/-- The conversion counter of the variant with the given id (0 if absent). -/
def conversionsOf (e : AdvancedExperiment) (vid : String) : ℕ :=
  ((findVariant e vid).map (fun v => v.conversions)).getD 0

/-- The revenue counter of the variant with the given id (0 if absent). -/
def revenueOf (e : AdvancedExperiment) (vid : String) : ℚ :=
  ((findVariant e vid).map (fun v => v.revenue)).getD 0

/-- The arm-pull counter of the variant with the given id (0 if absent). -/
def armPullsOf (e : AdvancedExperiment) (vid : String) : ℕ :=
  ((findVariant e vid).map (fun v => v.arm_pulls)).getD 0

/-- A constant stand-in for the MD5 hash, hitting assignment bucket 0.70. -/
def hash7000 : String → ℕ := fun _ => 7000

/-- A constant stand-in for the MD5 hash, hitting assignment bucket 0. -/
def hash0 : String → ℕ := fun _ => 0

/-- A user with no attributes set. -/
def uPlain : UserContext := { user_id := "u1", session_id := "s1" }

/-- A running 50/50 A/B experiment in which user "u1" already has a sticky assignment
to "control". -/
noncomputable def exC1 : AdvancedExperiment :=
  { experiment_id := "exp1", name := "exp1", experiment_type := ExperimentType.AB_TEST,
    variants := [{ id := "control", name := "Control", weight := 1/2 },
                 { id := "treatment", name := "Treatment", weight := 1/2 }],
    status := ExperimentStatus.RUNNING,
    participant_assignments := [("u1", "control")] }

/-- A COMPLETED (terminal) experiment in which user "u1" is assigned to "treatment". -/
noncomputable def exC3 : AdvancedExperiment :=
  { experiment_id := "exp3", name := "exp3", experiment_type := ExperimentType.AB_TEST,
    variants := [{ id := "control", name := "Control", weight := 1/2 },
                 { id := "treatment", name := "Treatment", weight := 1/2 }],
    status := ExperimentStatus.COMPLETED,
    participant_assignments := [("u1", "treatment")] }

/-- An experiment already stopped once: terminal status, end timestamp 5. -/
noncomputable def exC4 : AdvancedExperiment :=
  { experiment_id := "exp4", name := "exp4", experiment_type := ExperimentType.AB_TEST,
    variants := [{ id := "control", name := "Control", weight := 1/2 },
                 { id := "treatment", name := "Treatment", weight := 1/2 }],
    status := ExperimentStatus.COMPLETED, end_time := some 5 }

/-- A running experiment with an empty metrics history. -/
noncomputable def exC5 : AdvancedExperiment :=
  { experiment_id := "exp5", name := "exp5", experiment_type := ExperimentType.AB_TEST,
    variants := [{ id := "control", name := "Control", weight := 1/2 },
                 { id := "treatment", name := "Treatment", weight := 1/2 }],
    status := ExperimentStatus.RUNNING }

/-- A fresh running 3-arm bandit experiment (all counters zero). -/
noncomputable def exC7 : AdvancedExperiment :=
  { experiment_id := "exp7", name := "exp7",
    experiment_type := ExperimentType.MULTI_ARMED_BANDIT,
    variants := [{ id := "v1", name := "v1", weight := 1/3 },
                 { id := "v2", name := "v2", weight := 1/3 },
                 { id := "v3", name := "v3", weight := 1/3 }],
    status := ExperimentStatus.RUNNING }

/-- A mid-warm-up 3-arm bandit state, reached from `exC7` after five assignments: arm v1
has 5 pulls while v2 and v3 have 0. -/
noncomputable def exC7mid : AdvancedExperiment :=
  { experiment_id := "exp7", name := "exp7",
    experiment_type := ExperimentType.MULTI_ARMED_BANDIT,
    variants := [{ id := "v1", name := "v1", weight := 1/3, arm_pulls := 5,
                   impressions := 5 },
                 { id := "v2", name := "v2", weight := 1/3 },
                 { id := "v3", name := "v3", weight := 1/3 }],
    status := ExperimentStatus.RUNNING }

/-- A configuration whose two variant weights sum to 0.7, far outside [0.99, 1.01]. -/
def cfgC9 : ExperimentConfig :=
  { experiment_id := "exp9", name := "exp9", type := ExperimentType.AB_TEST,
    variants := [{ id := "control", name := "Control", weight := 1/2 },
                 { id := "treatment", name := "Treatment", weight := 1/5 }] }

/-- An engine test configuration for a plain 50/50 A/B test. -/
def cfgE : EngineTestConfiguration :=
  { test_id := "t1", name := "t1", test_type := TestType.AB, target_metric := "conversion_rate",
    traffic_allocation := 1/2, min_sample_size := 1000, max_duration_days := 30,
    statistical_power := 0.8, confidence_level := 0.95,
    variants := [{ id := "control", traffic_split := 50 },
                 { id := "treatment", traffic_split := 50 }] }

/-- An engine test still in DRAFT (not running). -/
def tdC2 : TestData :=
  { config := cfgE, status := TestStatus.DRAFT, required_sample_size := 12365,
    variants := [("control", {}), ("treatment", {})] }

/-- Engine state holding the DRAFT test under id "t1". -/
def stC2 : EngineState := { tests := [("t1", tdC2)] }

/-- An engine test already stopped once, with recorded stop reason and timestamp. -/
def tdC4 : TestData :=
  { config := cfgE, status := TestStatus.COMPLETED, required_sample_size := 12365,
    variants := [("control", {}), ("treatment", {})],
    stopped_at := some 5, stop_reason := some "first stop" }

/-- Engine state holding the already-stopped test under id "t1". -/
def stC4 : EngineState := { tests := [("t1", tdC4)] }


/-- The expected assignment of the i-th call in the warm-up trajectory of a fresh 3-arm
bandit: arm v1 for the first ten calls, then v2, then v3 (proof scaffolding for the
warm-up run). -/
def choice7 (i : ℕ) : String := if i < 10 then "v1" else if i < 20 then "v2" else "v3"

/-- The expected state of the fresh 3-arm bandit `exC7` after `i` assignment calls
(proof scaffolding): each arm accumulates up to 10 pulls in variant order. -/
noncomputable def exp7after (i : ℕ) : AdvancedExperiment :=
  { experiment_id := "exp7", name := "exp7",
    experiment_type := ExperimentType.MULTI_ARMED_BANDIT,
    variants := [{ id := "v1", name := "v1", weight := 1/3, arm_pulls := min i 10,
                   impressions := min i 10 },
                 { id := "v2", name := "v2", weight := 1/3, arm_pulls := min (i - 10) 10,
                   impressions := min (i - 10) 10 },
                 { id := "v3", name := "v3", weight := 1/3, arm_pulls := min (i - 20) 10,
                   impressions := min (i - 20) 10 }],
    status := ExperimentStatus.RUNNING,
    participant_assignments := if i = 0 then [] else [("u1", choice7 (i - 1))] }

/-- A control variant at the minimum sample size: 500 conversions in 1000 exposures. -/
def vC6control : VariantConfiguration :=
  { id := "control", name := "Control", weight := 1/2, conversions := 500,
    impressions := 1000 }

/-- A treatment variant at the minimum sample size with zero conversions: its computed
two-proportion significance against the control is 0.99 while its conversion rate is 0. -/
def vC6treatment : VariantConfiguration :=
  { id := "treatment", name := "Treatment", weight := 1/2, conversions := 0,
    impressions := 1000 }

/-- An experiment in which the treatment is the unique variant reaching the 0.95
significance bar, with conversion rate 0. -/
noncomputable def exC6' : AdvancedExperiment :=
  { experiment_id := "exp6", name := "exp6", experiment_type := ExperimentType.AB_TEST,
    variants := [vC6control, vC6treatment], status := ExperimentStatus.RUNNING }

/-- A control variant with all counters zero. -/
def wit6c : VariantConfiguration := { id := "control", name := "Control", weight := 1/2 }

/-- A treatment variant with all counters zero. -/
def wit6t : VariantConfiguration :=
  { id := "treatment", name := "Treatment", weight := 1/2 }

/-- A two-variant experiment with all counters zero: no variant can be significant. -/
noncomputable def exW6 : AdvancedExperiment :=
  { experiment_id := "exp6w", name := "exp6w", experiment_type := ExperimentType.AB_TEST,
    variants := [wit6c, wit6t], status := ExperimentStatus.RUNNING }

/-- A variant with 3 conversions in 10 exposures. -/
def vC8 : VariantConfiguration :=
  { id := "v", name := "v", weight := 1, conversions := 3, impressions := 10 }

/-- An experiment holding the 3-of-10 variant. -/
noncomputable def exC8 : AdvancedExperiment :=
  { experiment_id := "exp8", name := "exp8", experiment_type := ExperimentType.AB_TEST,
    variants := [vC8], status := ExperimentStatus.RUNNING }

/-- The first variant of the personalized example experiment. -/
def vC10a : VariantConfiguration :=
  { id := "control", name := "Control", weight := 1/2 }

/-- The second variant of the personalized example experiment. -/
def vC10b : VariantConfiguration :=
  { id := "treatment", name := "Treatment", weight := 1/2 }

/-- A running PERSONALIZED experiment with no segment overrides configured. -/
noncomputable def exC10' : AdvancedExperiment :=
  { experiment_id := "exp10", name := "exp10",
    experiment_type := ExperimentType.PERSONALIZED,
    variants := [vC10a, vC10b], status := ExperimentStatus.RUNNING }


lemma traffic_all (md5 : String → ℕ) (e : AdvancedExperiment) (u : UserContext)
    (h : e.traffic_allocation = 1) : isInTrafficAllocation md5 e u = true := by
  have hm : (md5 (e.experiment_id ++ "_" ++ u.user_id)) % 100 < 100 :=
    Nat.mod_lt _ (by norm_num)
  simp only [isInTrafficAllocation, h, decide_eq_true_eq]
  rw [div_lt_one (by norm_num)]
  exact_mod_cast hm

lemma exp7_select (i : ℕ) (hi : i < 30) : getBanditAssignment (exp7after i) = choice7 i := by
  rcases Nat.lt_or_ge i 10 with h1 | h1
  · have e1 : min i 10 = i := by omega
    have e2 : i - 10 = 0 := by omega
    have e3 : i - 20 = 0 := by omega
    simp only [getBanditAssignment, exp7after, List.find?, List.map, List.sum_cons,
      List.sum_nil, List.length, choice7, e1, e2, e3]
    simp [hi, h1]
  rcases Nat.lt_or_ge i 20 with h2 | h2
  · have e1 : min i 10 = 10 := by omega
    have e2 : min (i - 10) 10 = i - 10 := by omega
    have e3 : i - 20 = 0 := by omega
    have h3 : i - 10 < 10 := by omega
    simp only [getBanditAssignment, exp7after, List.find?, List.map, List.sum_cons,
      List.sum_nil, List.length, choice7, e1, e2, e3]
    simp [h3, (by omega : 10 + (i - 10) < 30)]
    rw [if_neg (by omega : ¬ i < 10), if_pos h2]
  · have e1 : min i 10 = 10 := by omega
    have e2 : min (i - 10) 10 = 10 := by omega
    have e3 : min (i - 20) 10 = i - 20 := by omega
    have h3 : i - 20 < 10 := by omega
    simp only [getBanditAssignment, exp7after, List.find?, List.map, List.sum_cons,
      List.sum_nil, List.length, choice7, e1, e2, e3]
    simp [h3, (by omega : 10 + (10 + (i - 20)) < 30)]
    rw [if_neg (by omega : ¬ i < 10), if_neg (by omega : ¬ i < 20)]

lemma assign_not_running (md5 : String → ℕ) (e : AdvancedExperiment) (u : UserContext)
    (h : e.status ≠ ExperimentStatus.RUNNING) : assignVariant md5 e u = (none, e) := by
  simp only [assignVariant, if_pos h]

lemma assign_success (md5 : String → ℕ) (e : AdvancedExperiment) (u : UserContext)
    (vid : String)
    (hst : e.status = ExperimentStatus.RUNNING)
    (helig : isUserEligible e u = true)
    (htr : isInTrafficAllocation md5 e u = true)
    (hsel : getVariantAssignment md5 e u = vid)
    (hne : vid ≠ "")
    (hmem : e.variants.any (fun v => v.id == vid) = true) :
    assignVariant md5 e u =
      (some vid,
       { e with participant_assignments := assocInsert u.user_id vid e.participant_assignments,
                variants := bumpImpressions
                  (decide (e.experiment_type = ExperimentType.MULTI_ARMED_BANDIT)) vid
                  e.variants }) := by
  simp only [assignVariant, hst, helig, htr, hsel, hne, hmem]
  simp

lemma getVariantAssignment_bandit (md5 : String → ℕ) (e : AdvancedExperiment)
    (u : UserContext) (h : e.experiment_type = ExperimentType.MULTI_ARMED_BANDIT) :
    getVariantAssignment md5 e u = getBanditAssignment e := by
  unfold getVariantAssignment
  rw [h]

lemma choice7_ne (i : ℕ) : choice7 i ≠ "" := by
  unfold choice7
  split_ifs <;> simp

lemma exp7_step (i : ℕ) (hi : i < 30) :
    assignVariant hash0 (exp7after i) uPlain = (some (choice7 i), exp7after (i + 1)) := by
  have hmem : (exp7after i).variants.any (fun v => v.id == choice7 i) = true := by
    unfold exp7after choice7
    split_ifs <;> simp
  rw [assign_success hash0 (exp7after i) uPlain (choice7 i) rfl rfl
        (traffic_all hash0 (exp7after i) uPlain rfl)
        (by rw [getVariantAssignment_bandit hash0 (exp7after i) uPlain rfl,
                exp7_select i hi])
        (choice7_ne i) hmem]
  refine congrArg _ ?_
  rcases Nat.lt_or_ge i 10 with h1 | h1
  · have f1 : min i 10 = i := by omega
    have g1 : min (i + 1) 10 = i + 1 := by omega
    have f2 : i - 10 = 0 := by omega
    have g2 : i + 1 - 10 = 0 := by omega
    have f3 : i - 20 = 0 := by omega
    have g3 : i + 1 - 20 = 0 := by omega
    by_cases h0 : i = 0 <;>
      simp [exp7after, bumpImpressions, choice7, assocInsert, uPlain, f1, g1, f2, g2,
        f3, g3, h1, h0, (by omega : i - 1 < 10)]
  rcases Nat.lt_or_ge i 20 with h2 | h2
  · have f1 : min i 10 = 10 := by omega
    have g1 : min (i + 1) 10 = 10 := by omega
    have f2 : min (i - 10) 10 = i - 10 := by omega
    have g2 : min (i + 1 - 10) 10 = i + 1 - 10 := by omega
    have f3 : i - 20 = 0 := by omega
    have g3 : i + 1 - 20 = 0 := by omega
    have h1' : ¬ i < 10 := by omega
    have h0 : ¬ i = 0 := by omega
    have hm : ¬ i - 1 < 10 ∨ i - 1 < 10 := by omega
    simp [exp7after, bumpImpressions, choice7, assocInsert, uPlain, f1, g1, f2, g2,
      f3, g3, h1', h2, h0]
    omega
  · have f1 : min i 10 = 10 := by omega
    have g1 : min (i + 1) 10 = 10 := by omega
    have f2 : min (i - 10) 10 = 10 := by omega
    have g2 : min (i + 1 - 10) 10 = 10 := by omega
    have f3 : min (i - 20) 10 = i - 20 := by omega
    have g3 : min (i + 1 - 20) 10 = i + 1 - 20 := by omega
    have h1' : ¬ i < 10 := by omega
    have h2' : ¬ i < 20 := by omega
    have h0 : ¬ i = 0 := by omega
    simp [exp7after, bumpImpressions, choice7, assocInsert, uPlain, f1, g1, f2, g2,
      f3, g3, h1', h2', h0]
    omega


lemma exp7_run : ∀ k i, i + k ≤ 30 →
    runAssigns hash0 uPlain (exp7after i) k
      = ((List.range k).map (fun j => some (choice7 (i + j))), exp7after (i + k)) := by
  intro k
  induction k with
  | zero => intro i h; simp [runAssigns]
  | succ n ih =>
    intro i h
    simp only [runAssigns, exp7_step i (by omega), ih (i + 1) (by omega)]
    have hfun : ((fun j => some (choice7 (i + j))) ∘ Nat.succ)
        = (fun j => some (choice7 (i + 1 + j))) := by
      funext j
      simp only [Function.comp]
      congr 2
      omega
    rw [List.range_succ_eq_map]
    simp only [List.map_cons, List.map_map, Nat.add_zero, Prod.mk.injEq, hfun]
    constructor
    · simp
    · congr 1
      omega

lemma exC7_eq : exC7 = exp7after 0 := by
  simp [exC7, exp7after]

lemma run30 :
    (runAssigns hash0 uPlain exC7 30).1
        = List.replicate 10 (some "v1") ++ List.replicate 10 (some "v2")
          ++ List.replicate 10 (some "v3")
      ∧ pullsView (runAssigns hash0 uPlain exC7 30).2
        = [("v1", 10), ("v2", 10), ("v3", 10)] := by
  rw [exC7_eq, exp7_run 30 0 (by omega)]
  constructor
  · decide
  · simp [pullsView, exp7after]



lemma exC6_sqrt_le : Real.sqrt ((3 : ℝ) / 8000) ≤ 1 / 50 := by
  have h := Real.sqrt_le_sqrt (by norm_num : (3 : ℝ) / 8000 ≤ (1 / 50) ^ 2)
  rwa [Real.sqrt_sq (by norm_num : (0:ℝ) ≤ 1 / 50)] at h

lemma exC6_sig : calculateSignificance exC6' "treatment" = 0.99 := by
  have hpos : 0 < Real.sqrt ((3 : ℝ) / 8000) := Real.sqrt_pos.mpr (by norm_num)
  have hne : ¬ (Real.sqrt ((3 : ℝ) / 8000) = 0) := by linarith
  simp only [calculateSignificance, findVariant, exC6', vC6control, vC6treatment,
    List.find?,
    (show (("control" == "treatment") = false) from rfl),
    (show (("control" == "control") = true) from rfl),
    (show (("treatment" == "treatment") = true) from rfl)]
  norm_num [hne]
  rw [if_neg (by decide : ¬ ("treatment" = "control"))]
  have hz : (129 : ℝ) / 50 ≤ |(1 : ℝ) / 2| / (Real.sqrt 3 / Real.sqrt 8000) := by
    rw [abs_of_pos (by norm_num : (0:ℝ) < 1 / 2)]
    rw [← Real.sqrt_div (by norm_num : (0:ℝ) ≤ 3)]
    rw [le_div_iff₀ hpos]
    nlinarith [exC6_sqrt_le, hpos]
  rw [if_pos hz]

lemma exC6_sig_control : calculateSignificance exC6' "control" = 0 := by
  simp only [calculateSignificance, findVariant, exC6', vC6control, vC6treatment,
    List.find?, (show (("control" == "control") = true) from rfl)]
  simp

lemma exC6_metrics_control_sig :
    (variantMetrics exC6' vC6control).statistical_significance = 0 := by
  simp only [variantMetrics]
  rw [if_pos (by norm_num [exC6', vC6control] :
        exC6'.minimum_sample_size ≤ vC6control.impressions)]
  exact exC6_sig_control

lemma exC6_metrics_treatment_sig :
    (variantMetrics exC6' vC6treatment).statistical_significance = 0.99 := by
  simp only [variantMetrics]
  rw [if_pos (by norm_num [exC6', vC6treatment] :
        exC6'.minimum_sample_size ≤ vC6treatment.impressions)]
  exact exC6_sig

lemma exC6_metrics_treatment_rate :
    (variantMetrics exC6' vC6treatment).conversion_rate = 0 := by
  simp [variantMetrics, vC6treatment]

lemma winnerFold_some_stays (l : List (String × ExperimentMetrics)) :
    ∀ (v : String) (r : ℚ), (l.foldl winnerStep (some v, r)).1.isSome = true := by
  induction l with
  | nil => intro v r; rfl
  | cons p t ih =>
    intro v r
    simp only [List.foldl, winnerStep]
    split_ifs
    · exact ih _ _
    · exact ih _ _

lemma winnerFold_none (l : List (String × ExperimentMetrics)) :
    ∀ (b : Option String) (r : ℚ), (l.foldl winnerStep (b, r)).1 = none →
      b = none ∧ ∀ p ∈ l,
        ¬(0.95 ≤ p.2.statistical_significance ∧ r < p.2.conversion_rate) := by
  induction l with
  | nil => intro b r h; simpa using h
  | cons p t ih =>
    intro b r h
    rw [List.foldl] at h
    by_cases hc : 0.95 ≤ p.2.statistical_significance ∧ r < p.2.conversion_rate
    · exfalso
      rw [winnerStep, if_pos hc] at h
      have := winnerFold_some_stays t p.1 p.2.conversion_rate
      rw [h] at this
      simp at this
    · rw [winnerStep, if_neg hc] at h
      obtain ⟨hb, hall⟩ := ih b r h
      refine ⟨hb, ?_⟩
      intro q hq
      rcases List.mem_cons.mp hq with rfl | hq
      · exact hc
      · exact hall q hq

lemma winnerFold_none_of (l : List (String × ExperimentMetrics))
    (h : ∀ p ∈ l, ¬(0.95 ≤ p.2.statistical_significance ∧ 0 < p.2.conversion_rate)) :
    l.foldl winnerStep (none, 0) = (none, 0) := by
  induction l with
  | nil => rfl
  | cons p t ih =>
    rw [List.foldl, winnerStep, if_neg (h p (by simp))]
    exact ih (fun q hq => h q (by simp [hq]))

lemma winnerFold_some (l : List (String × ExperimentMetrics)) :
    ∀ (b : Option String) (r : ℚ) (v : String) (rv : ℚ),
      l.foldl winnerStep (b, r) = (some v, rv) →
      ((b = some v ∧ rv = r
          ∧ ∀ p ∈ l, 0.95 ≤ p.2.statistical_significance → p.2.conversion_rate ≤ r)
       ∨ (∃ m, (v, m) ∈ l ∧ 0.95 ≤ m.statistical_significance
            ∧ m.conversion_rate = rv ∧ r < rv
            ∧ ∀ p ∈ l, 0.95 ≤ p.2.statistical_significance → p.2.conversion_rate ≤ rv)) := by
  induction l with
  | nil =>
    intro b r v rv h
    simp only [List.foldl] at h
    rw [Prod.mk.injEq] at h
    exact Or.inl ⟨h.1, h.2.symm, by simp⟩
  | cons p t ih =>
    intro b r v rv h
    rw [List.foldl] at h
    by_cases hc : 0.95 ≤ p.2.statistical_significance ∧ r < p.2.conversion_rate
    · rw [winnerStep, if_pos hc] at h
      rcases ih (some p.1) p.2.conversion_rate v rv h with
        ⟨hb, hrv, hall⟩ | ⟨m, hm, hsig, hrate, hlt, hall⟩
      · have hv : p.1 = v := Option.some.inj hb
        refine Or.inr ⟨p.2, ?_, hc.1, hrv.symm, by rw [hrv]; exact hc.2, ?_⟩
        · rw [← hv, Prod.mk.eta]
          exact List.mem_cons_self p t
        · intro q hq
          rcases List.mem_cons.mp hq with rfl | hq
          · intro _
            rw [hrv]
          · intro hs
            rw [hrv]
            exact hall q hq hs
      · refine Or.inr ⟨m, List.mem_cons_of_mem _ hm, hsig, hrate,
          lt_trans hc.2 hlt, ?_⟩
        intro q hq
        rcases List.mem_cons.mp hq with rfl | hq
        · intro _
          exact le_of_lt hlt
        · exact hall q hq
    · rw [winnerStep, if_neg hc] at h
      rcases ih b r v rv h with ⟨hb, hrv, hall⟩ | ⟨m, hm, hsig, hrate, hlt, hall⟩
      · refine Or.inl ⟨hb, hrv, ?_⟩
        intro q hq
        rcases List.mem_cons.mp hq with rfl | hq
        · intro hs
          exact le_of_not_lt (fun hlt' => hc ⟨hs, hlt'⟩)
        · exact hall q hq
      · refine Or.inr ⟨m, List.mem_cons_of_mem _ hm, hsig, hrate, hlt, ?_⟩
        intro q hq
        rcases List.mem_cons.mp hq with rfl | hq
        · intro hs
          have hle : q.2.conversion_rate ≤ r := le_of_not_lt (fun hlt' => hc ⟨hs, hlt'⟩)
          exact le_trans hle (le_of_lt hlt)
        · exact hall q hq



/-- C6 (amended): `get_winning_variant` returns none exactly when no variant has both
statistical significance at least 0.95 and strictly positive conversion rate; when it
returns a variant, that variant meets the significance bar, has strictly positive
conversion rate, and its conversion rate is maximal among all variants meeting the bar
(the control is excluded implicitly, since its computed significance is always 0). -/
theorem c6_thm (e : AdvancedExperiment) :
    (∀ v, (getWinningVariant e).1 = some v →
       ∃ m, (v, m) ∈ (calculateMetrics e).1 ∧ 0.95 ≤ m.statistical_significance
         ∧ 0 < m.conversion_rate
         ∧ ∀ p ∈ (calculateMetrics e).1,
             0.95 ≤ p.2.statistical_significance → p.2.conversion_rate ≤ m.conversion_rate)
    ∧ ((getWinningVariant e).1 = none ↔
        ∀ p ∈ (calculateMetrics e).1,
          ¬(0.95 ≤ p.2.statistical_significance ∧ 0 < p.2.conversion_rate)) := by
  constructor
  · intro v hv
    simp only [getWinningVariant] at hv
    have h : (calculateMetrics e).1.foldl winnerStep (none, 0)
        = (some v, ((calculateMetrics e).1.foldl winnerStep (none, 0)).2) :=
      Prod.ext hv rfl
    rcases winnerFold_some (calculateMetrics e).1 none 0 v _ h with
      ⟨hb, _, _⟩ | ⟨m, hm, hsig, hrate, hlt, hall⟩
    · exact absurd hb (by simp)
    · refine ⟨m, hm, hsig, ?_, ?_⟩
      · rw [hrate]
        exact hlt
      · intro p hp hs
        rw [hrate]
        exact hall p hp hs
  · constructor
    · intro hv
      simp only [getWinningVariant] at hv
      exact (winnerFold_none (calculateMetrics e).1 none 0 hv).2
    · intro hall
      simp only [getWinningVariant]
      rw [winnerFold_none_of (calculateMetrics e).1 hall]

/-- C6 counterexample: in `exC6'` the treatment is the unique non-control variant with
significance at least 0.95 (it has significance 0.99, the control 0), so by the claim it
should be returned as the winner; the code returns none because the treatment's
conversion rate 0 is not strictly greater than the initial best rate 0.0. -/
theorem c6_counterexample :
    (getWinningVariant exC6').1 = none
    ∧ 0.95 ≤ (variantMetrics exC6' vC6treatment).statistical_significance
    ∧ (variantMetrics exC6' vC6control).statistical_significance < 0.95
    ∧ vC6treatment.id = "treatment" := by
  refine ⟨?_, ?_, ?_, rfl⟩
  · simp only [getWinningVariant]
    rw [show (calculateMetrics exC6').1
          = [("control", variantMetrics exC6' vC6control),
             ("treatment", variantMetrics exC6' vC6treatment)] from rfl]
    rw [winnerFold_none_of _ ?_]
    intro p hp
    rcases List.mem_cons.mp hp with rfl | hp
    · rw [exC6_metrics_control_sig]
      norm_num
    · rcases List.mem_cons.mp hp with rfl | hp
      · rw [exC6_metrics_treatment_rate]
        norm_num
      · exact absurd hp (by simp)
  · rw [exC6_metrics_treatment_sig]
    norm_num
  · rw [exC6_metrics_control_sig]
    norm_num

/-- C6 witness: the amended characterization applied at the all-zero-counter
experiment `exW6`, where no variant qualifies and the winner is none. -/
theorem c6_witness : (getWinningVariant exW6).1 = none := by
  refine (c6_thm exW6).2.mpr ?_
  intro p hp
  rw [show (calculateMetrics exW6).1
        = [("control", variantMetrics exW6 wit6c),
           ("treatment", variantMetrics exW6 wit6t)] from rfl] at hp
  have hc : (variantMetrics exW6 wit6c).statistical_significance = 0 := by
    simp only [variantMetrics]
    rw [if_neg (by norm_num [exW6, wit6c] :
          ¬ exW6.minimum_sample_size ≤ wit6c.impressions)]
  have ht : (variantMetrics exW6 wit6t).statistical_significance = 0 := by
    simp only [variantMetrics]
    rw [if_neg (by norm_num [exW6, wit6t] :
          ¬ exW6.minimum_sample_size ≤ wit6t.impressions)]
  rcases List.mem_cons.mp hp with rfl | hp
  · rw [hc]
    norm_num
  · rcases List.mem_cons.mp hp with rfl | hp
    · rw [ht]
      norm_num
    · exact absurd hp (by simp)



lemma calcMetrics_variants (e : AdvancedExperiment) :
    (calculateMetrics e).2.variants = e.variants := rfl

lemma stop_variants (e : AdvancedExperiment) (now : ℕ) (r : String) :
    (stopExperiment e now r).2.variants = e.variants := rfl

lemma winner_variants (e : AdvancedExperiment) :
    (getWinningVariant e).2.variants = e.variants := rfl

lemma guardrails_variants (e : AdvancedExperiment) (now : ℕ) :
    (checkExperimentGuardrails e now).variants = e.variants := by
  simp only [checkExperimentGuardrails]
  split
  · rfl
  · split
    · split
      · split
        · split
          · split <;> rfl
          · rfl
        · rfl
      · rfl
    · rfl

lemma track_success (e : AdvancedExperiment) (uid ct : String) (val : ℚ) (now : ℕ)
    (vid : String) (w : VariantConfiguration)
    (hl : e.participant_assignments.lookup uid = some vid)
    (hf : findVariant e vid = some w) :
    trackConversion e uid ct val now
      = (true,
         checkExperimentGuardrails
           { e with
             conversion_events := e.conversion_events ++
               [{ user_id := uid, variant_id := vid, conversion_type := ct,
                  value := val, timestamp := now }],
             variants := e.variants.map (fun v =>
               if v.id == vid then
                 { v with conversions := v.conversions + 1,
                          revenue := v.revenue + val,
                          reward_sum :=
                            if decide (e.experiment_type
                                = ExperimentType.MULTI_ARMED_BANDIT) then
                              v.reward_sum + val
                            else v.reward_sum,
                          confidence :=
                            if decide (e.experiment_type
                                  = ExperimentType.MULTI_ARMED_BANDIT)
                                && decide (0 < v.arm_pulls) then
                              min (0.99 : ℚ) ((v.arm_pulls : ℚ) / ((v.arm_pulls : ℚ) + 100))
                            else v.confidence }
               else v) } now) := by
  simp only [trackConversion, hl, hf]

lemma findVariant_map (f : VariantConfiguration → VariantConfiguration)
    (hid : ∀ v, (f v).id = v.id) (l : List VariantConfiguration) (vid : String) :
    (l.map f).find? (fun v => v.id == vid) = (l.find? (fun v => v.id == vid)).map f := by
  induction l with
  | nil => rfl
  | cons v t ih =>
    by_cases h : v.id == vid
    · simp [List.find?, hid, h]
    · simp only [List.map, List.find?, hid, h]
      simpa using ih

lemma any_map_id (f : VariantConfiguration → VariantConfiguration)
    (hid : ∀ v, (f v).id = v.id) (l : List VariantConfiguration) (vid : String) :
    (l.map f).any (fun v => v.id == vid) = l.any (fun v => v.id == vid) := by
  induction l with
  | nil => rfl
  | cons v t ih => simp [List.any, hid, ih]

lemma lookup_assocInsert {β : Type} (k : String) (v : β) (l : List (String × β)) :
    (assocInsert k v l).lookup k = some v := by
  induction l with
  | nil => simp [assocInsert, List.lookup]
  | cons p t ih =>
    by_cases h : p.1 = k
    · simp [assocInsert, h, List.lookup]
    · have h2 : (p.1 == k) = false := by simpa using h
      have h3 : (k == p.1) = false := by
        simp only [beq_eq_false_iff_ne]
        exact fun hk => h hk.symm
      simp [assocInsert, h2, List.lookup, h3, ih]



/-- C2 (amended): the framework's `assign_variant` returns `none` with the experiment
unchanged for every status other than RUNNING; the engine's `assign_variant` instead
returns the literal string "control" (its "Default fallback") whenever the test is
missing or not RUNNING, also leaving the state unchanged. -/
theorem c2_thm :
    (∀ (md5 : String → ℕ) (e : AdvancedExperiment) (u : UserContext),
       e.status ≠ ExperimentStatus.RUNNING → assignVariant md5 e u = (none, e))
    ∧ (∀ (st : EngineState) (o : BanditOracle) (h : String → ℕ) (tid uid : String),
       (∀ td, st.tests.lookup tid = some td → td.status ≠ TestStatus.RUNNING) →
       engineAssignVariant st o h tid uid = ("control", st)) := by
  constructor
  · intro md5 e u h
    exact assign_not_running md5 e u h
  · intro st o h tid uid hst
    simp only [engineAssignVariant]
    cases hl : st.tests.lookup tid with
    | none => rfl
    | some td => simp [hst td hl]

/-- C2 counterexample: the engine test "t1" exists and is in DRAFT status, yet
`assign_variant` returns the variant id "control" rather than none. -/
theorem c2_counterexample :
    stC2.tests.lookup "t1" = some tdC2
    ∧ tdC2.status = TestStatus.DRAFT
    ∧ (engineAssignVariant stC2 {} (fun _ => 0) "t1" "u1").1 = "control" := by
  refine ⟨rfl, rfl, ?_⟩
  simp only [engineAssignVariant]
  rw [show stC2.tests.lookup "t1" = some tdC2 from rfl]
  simp [show tdC2.status ≠ TestStatus.RUNNING from by decide]

/-- C2 witness: the amended theorem applied to the COMPLETED experiment `exC3` and to
the DRAFT engine test of `stC2`. -/
theorem c2_witness :
    assignVariant hash0 exC3 uPlain = (none, exC3)
    ∧ engineAssignVariant stC2 {} (fun _ => 0) "t1" "u1" = ("control", stC2) := by
  constructor
  · exact c2_thm.1 hash0 exC3 uPlain (by decide)
  · refine c2_thm.2 stC2 {} (fun _ => 0) "t1" "u1" ?_
    intro td h
    have : td = tdC2 := by
      have h2 : stC2.tests.lookup "t1" = some tdC2 := rfl
      rw [h2] at h
      exact (Option.some.inj h).symm
    rw [this]
    decide

/-- C5 (amended): `calculate_metrics` leaves the variant counters, status, assignments
and conversion events unchanged, but it is not pure with respect to the experiment
record: it appends the computed per-variant metrics to `metrics_history`. -/
theorem c5_thm (e : AdvancedExperiment) :
    (calculateMetrics e).2.variants = e.variants
    ∧ (calculateMetrics e).2.status = e.status
    ∧ (calculateMetrics e).2.participant_assignments = e.participant_assignments
    ∧ (calculateMetrics e).2.conversion_events = e.conversion_events
    ∧ (calculateMetrics e).2.end_time = e.end_time
    ∧ (calculateMetrics e).2.metrics_history
        = e.metrics_history ++ [(calculateMetrics e).1] :=
  ⟨rfl, rfl, rfl, rfl, rfl, rfl⟩

/-- C5 counterexample: one `calculate_metrics` call on `exC5` grows `metrics_history`
from length 0 to length 1, so the experiment state before and after the call is not
identical. -/
theorem c5_counterexample :
    exC5.metrics_history.length = 0
    ∧ (calculateMetrics exC5).2.metrics_history.length = 1 := ⟨rfl, rfl⟩

/-- C4 (amended): neither stop path checks the current status and no StateError
exists.  The framework's `stop_experiment` always returns True, sets status COMPLETED
and overwrites the end timestamp with the current time; the engine's `_stop_test`
overwrites status, stop timestamp and stop reason of the stored test record. -/
theorem c4_thm :
    (∀ (e : AdvancedExperiment) (now : ℕ) (r : String),
       (stopExperiment e now r).1 = true
       ∧ (stopExperiment e now r).2.status = ExperimentStatus.COMPLETED
       ∧ (stopExperiment e now r).2.end_time = some now)
    ∧ (∀ (st : EngineState) (tid : String) (now : ℕ) (r : String) (td : TestData),
       st.tests.lookup tid = some td →
       (engineStopTest st tid now r).tests.lookup tid
         = some { td with status := TestStatus.COMPLETED, stopped_at := some now,
                          stop_reason := some r }) := by
  constructor
  · intro e now r
    exact ⟨rfl, rfl, rfl⟩
  · intro st tid now r td h
    simp only [engineStopTest, h]
    exact lookup_assocInsert tid _ st.tests

/-- C4 counterexample: `exC4` was already stopped (COMPLETED at time 5), yet a second
stop call succeeds (returns True, not a StateError) and overwrites the end timestamp to
9; likewise the engine's second `_stop_test` overwrites the recorded stop reason. -/
theorem c4_counterexample :
    exC4.status = ExperimentStatus.COMPLETED
    ∧ exC4.end_time = some 5
    ∧ (stopExperiment exC4 9 "again").1 = true
    ∧ (stopExperiment exC4 9 "again").2.end_time = some 9
    ∧ tdC4.stop_reason = some "first stop"
    ∧ ((engineStopTest stC4 "t1" 9 "second stop").tests.lookup "t1").map
        (fun td => td.stop_reason) = some (some "second stop") := by
  refine ⟨rfl, rfl, rfl, rfl, rfl, ?_⟩
  simp only [engineStopTest]
  rw [show stC4.tests.lookup "t1" = some tdC4 from rfl]
  rw [lookup_assocInsert]
  rfl

/-- C4 witness: the amended theorem applied at the already-stopped states `exC4` and
`stC4`. -/
theorem c4_witness :
    (stopExperiment exC4 9 "again").1 = true
    ∧ (engineStopTest stC4 "t1" 9 "second stop").tests.lookup "t1"
        = some { tdC4 with status := TestStatus.COMPLETED, stopped_at := some 9,
                           stop_reason := some "second stop" } :=
  ⟨(c4_thm.1 exC4 9 "again").1, c4_thm.2 stC4 "t1" 9 "second stop" tdC4 rfl⟩

/-- C3 (amended): `track_conversion` never consults the experiment status.  Whenever
the user has a recorded assignment to an existing variant, the call returns True and
increments that variant's conversions and revenue counters — in every status, including
the terminal ones — so conversion tracking after a stop is not a no-op. -/
theorem c3_thm (e : AdvancedExperiment) (uid ct : String) (val : ℚ) (now : ℕ)
    (vid : String) (w : VariantConfiguration)
    (hl : e.participant_assignments.lookup uid = some vid)
    (hf : findVariant e vid = some w) :
    (trackConversion e uid ct val now).1 = true
    ∧ conversionsOf (trackConversion e uid ct val now).2 vid = conversionsOf e vid + 1
    ∧ revenueOf (trackConversion e uid ct val now).2 vid = revenueOf e vid + val := by
  rw [track_success e uid ct val now vid w hl hf]
  have hf' : e.variants.find? (fun v => v.id == vid) = some w := hf
  have hwid : (w.id == vid) = true := by simpa using List.find?_some hf'
  have hid : ∀ v : VariantConfiguration,
      ((fun v => if v.id == vid then
          { v with conversions := v.conversions + 1,
                   revenue := v.revenue + val,
                   reward_sum :=
                     if decide (e.experiment_type = ExperimentType.MULTI_ARMED_BANDIT) then
                       v.reward_sum + val
                     else v.reward_sum,
                   confidence :=
                     if decide (e.experiment_type = ExperimentType.MULTI_ARMED_BANDIT)
                         && decide (0 < v.arm_pulls) then
                       min (0.99 : ℚ) ((v.arm_pulls : ℚ) / ((v.arm_pulls : ℚ) + 100))
                     else v.confidence }
        else v) v).id = v.id := by
    intro v
    by_cases h : v.id == vid <;> simp [h]
  refine ⟨rfl, ?_⟩
  have hww : w.id = vid := by simpa using hwid
  refine ⟨?_, ?_⟩
  · simp only [conversionsOf, findVariant, guardrails_variants]
    rw [findVariant_map _ hid, hf']
    simp [hww]
  · simp only [revenueOf, findVariant, guardrails_variants]
    rw [findVariant_map _ hid, hf']
    simp [hww]



/-- C3 counterexample: `exC3` is COMPLETED (terminal), yet `track_conversion` returns
True and increments the assigned variant's conversion counter from 0 to 1. -/
theorem c3_counterexample :
    exC3.status = ExperimentStatus.COMPLETED
    ∧ conversionsOf exC3 "treatment" = 0
    ∧ (trackConversion exC3 "u1" "booking_completed" 100 7).1 = true
    ∧ conversionsOf (trackConversion exC3 "u1" "booking_completed" 100 7).2 "treatment"
        = 1 := by
  refine ⟨rfl, rfl, rfl, ?_⟩
  rw [track_success exC3 "u1" "booking_completed" 100 7 "treatment" _ rfl rfl]
  simp only [conversionsOf, findVariant, guardrails_variants]
  simp [exC3]

/-- C3 witness: the amended theorem applied at the terminal experiment `exC3`. -/
theorem c3_witness :
    (trackConversion exC3 "u1" "booking_completed" 100 7).1 = true
    ∧ conversionsOf (trackConversion exC3 "u1" "booking_completed" 100 7).2 "treatment"
        = conversionsOf exC3 "treatment" + 1
    ∧ revenueOf (trackConversion exC3 "u1" "booking_completed" 100 7).2 "treatment"
        = revenueOf exC3 "treatment" + 100 :=
  c3_thm exC3 "u1" "booking_completed" 100 7 "treatment" _ rfl rfl

lemma assign_not_eligible (md5 : String → ℕ) (e : AdvancedExperiment) (u : UserContext)
    (hst : e.status = ExperimentStatus.RUNNING) (h : ¬ isUserEligible e u = true) :
    assignVariant md5 e u = (none, e) := by
  simp only [assignVariant, hst, h]
  simp

lemma assign_not_traffic (md5 : String → ℕ) (e : AdvancedExperiment) (u : UserContext)
    (hst : e.status = ExperimentStatus.RUNNING) (helig : isUserEligible e u = true)
    (h : ¬ isInTrafficAllocation md5 e u = true) :
    assignVariant md5 e u = (none, e) := by
  simp only [assignVariant, hst, helig, h]
  simp

lemma assign_empty (md5 : String → ℕ) (e : AdvancedExperiment) (u : UserContext)
    (hst : e.status = ExperimentStatus.RUNNING) (helig : isUserEligible e u = true)
    (htr : isInTrafficAllocation md5 e u = true)
    (h : getVariantAssignment md5 e u = "") :
    assignVariant md5 e u = (none, e) := by
  simp only [assignVariant, hst, helig, htr, h]
  simp

lemma assign_member_fail (md5 : String → ℕ) (e : AdvancedExperiment) (u : UserContext)
    (vid : String)
    (hst : e.status = ExperimentStatus.RUNNING) (helig : isUserEligible e u = true)
    (htr : isInTrafficAllocation md5 e u = true)
    (hsel : getVariantAssignment md5 e u = vid)
    (hne : vid ≠ "")
    (hmem : ¬ e.variants.any (fun v => v.id == vid) = true) :
    assignVariant md5 e u =
      (none, { e with participant_assignments :=
                 assocInsert u.user_id vid e.participant_assignments }) := by
  simp only [assignVariant, hst, helig, htr, hsel, hne, hmem]
  simp [hne]

lemma cumulativeWalk_map (f : VariantConfiguration → VariantConfiguration)
    (hid : ∀ v, (f v).id = v.id) (hw : ∀ v, (f v).weight = v.weight) (rv : ℚ) :
    ∀ (acc : ℚ) (l : List VariantConfiguration),
      cumulativeWalk rv acc (l.map f) = cumulativeWalk rv acc l := by
  intro acc l
  induction l generalizing acc with
  | nil => rfl
  | cons v t ih =>
    simp only [List.map, cumulativeWalk, hid, hw]
    split_ifs <;> simp [ih]

lemma getRandomAssignment_map (md5 : String → ℕ) (u : UserContext)
    (e : AdvancedExperiment) (f : VariantConfiguration → VariantConfiguration)
    (hid : ∀ v, (f v).id = v.id) (hw : ∀ v, (f v).weight = v.weight)
    (asg : List (String × String)) :
    getRandomAssignment md5
        { e with variants := e.variants.map f, participant_assignments := asg } u
      = getRandomAssignment md5 e u := by
  simp only [getRandomAssignment, cumulativeWalk_map f hid hw]
  cases e.variants with
  | nil => rfl
  | cons v t =>
    simp only [List.map, List.head?]
    cases cumulativeWalk ((md5 (e.experiment_id ++ "_" ++ u.user_id ++ "_assignment")
        % 10000 : ℕ) / 10000 : ℚ) 0 (v :: t) with
    | none => simp [hid]
    | some vid => rfl

lemma getVariantAssignment_random (md5 : String → ℕ) (e : AdvancedExperiment)
    (u : UserContext)
    (htype : e.experiment_type = ExperimentType.AB_TEST
      ∨ e.experiment_type = ExperimentType.MULTIVARIATE
      ∨ e.experiment_type = ExperimentType.FACTORIAL) :
    getVariantAssignment md5 e u = getRandomAssignment md5 e u := by
  unfold getVariantAssignment
  rcases htype with h | h | h <;> rw [h]



/-- C1 (amended): `assign_variant` has no sticky-assignment check — it recomputes the
variant on every call and increments the chosen variant's exposure counter each time.
For the hash-based experiment types (AB_TEST, MULTIVARIATE, FACTORIAL) the recomputation
is deterministic in (experiment id, user id), so two successive calls return the same
variant id; but when a variant is assigned, its exposure counter has been incremented
twice after the two calls, and any existing Assignment entry is overwritten rather than
returned. -/
theorem c1_thm (md5 : String → ℕ) (e : AdvancedExperiment) (u : UserContext)
    (htype : e.experiment_type = ExperimentType.AB_TEST
      ∨ e.experiment_type = ExperimentType.MULTIVARIATE
      ∨ e.experiment_type = ExperimentType.FACTORIAL) :
    (assignVariant md5 (assignVariant md5 e u).2 u).1 = (assignVariant md5 e u).1
    ∧ ∀ vid, (assignVariant md5 e u).1 = some vid →
        impressionsOf (assignVariant md5 (assignVariant md5 e u).2 u).2 vid
          = impressionsOf e vid + 2 := by
  by_cases hst : e.status = ExperimentStatus.RUNNING
  case neg =>
    have h1 := assign_not_running md5 e u hst
    refine ⟨?_, ?_⟩
    · rw [h1]
      show (assignVariant md5 e u).1 = none
      rw [h1]
    · intro vid hv
      rw [h1] at hv
      exact absurd hv (by simp)
  by_cases helig : isUserEligible e u = true
  case neg =>
    have h1 := assign_not_eligible md5 e u hst helig
    refine ⟨?_, ?_⟩
    · rw [h1]
      show (assignVariant md5 e u).1 = none
      rw [h1]
    · intro vid hv
      rw [h1] at hv
      exact absurd hv (by simp)
  by_cases htr : isInTrafficAllocation md5 e u = true
  case neg =>
    have h1 := assign_not_traffic md5 e u hst helig htr
    refine ⟨?_, ?_⟩
    · rw [h1]
      show (assignVariant md5 e u).1 = none
      rw [h1]
    · intro vid hv
      rw [h1] at hv
      exact absurd hv (by simp)
  by_cases hne : getVariantAssignment md5 e u = ""
  case pos =>
    have h1 := assign_empty md5 e u hst helig htr hne
    refine ⟨?_, ?_⟩
    · rw [h1]
      show (assignVariant md5 e u).1 = none
      rw [h1]
    · intro vid hv
      rw [h1] at hv
      exact absurd hv (by simp)
  by_cases hmem : e.variants.any (fun v => v.id == getVariantAssignment md5 e u) = true
  case neg =>
    set E1 : AdvancedExperiment :=
      { e with participant_assignments := assocInsert u.user_id (getVariantAssignment md5 e u) e.participant_assignments } with hE1
    have h1 : assignVariant md5 e u = (none, E1) :=
      assign_member_fail md5 e u (getVariantAssignment md5 e u)
        hst helig htr rfl hne hmem
    have hstE : E1.status = ExperimentStatus.RUNNING := hst
    have heligE : isUserEligible E1 u = true := helig
    have htrE : isInTrafficAllocation md5 E1 u = true := htr
    have hselE : getVariantAssignment md5 E1 u = getVariantAssignment md5 e u := by
      rw [getVariantAssignment_random md5 E1 u htype,
          getVariantAssignment_random md5 e u htype]
      rfl

    have hmemE : ¬ E1.variants.any
        (fun v => v.id == getVariantAssignment md5 e u) = true := hmem
    have h2 := assign_member_fail md5 E1 u (getVariantAssignment md5 e u)
      hstE heligE htrE hselE hne hmemE
    refine ⟨?_, ?_⟩
    · rw [h1]
      show (assignVariant md5 E1 u).1 = none
      rw [h2]
    · intro vid hv
      rw [h1] at hv
      exact absurd hv (by simp)
  case pos =>
    set vid := getVariantAssignment md5 e u with hvid
    have hb : decide (e.experiment_type = ExperimentType.MULTI_ARMED_BANDIT) = false := by
      rcases htype with h | h | h <;> simp [h]
    have h1 := assign_success md5 e u vid hst helig htr rfl hne hmem
    set f : VariantConfiguration → VariantConfiguration := fun v =>
      if v.id == vid then
        { v with impressions := v.impressions + 1,
                 arm_pulls :=
                   if decide (e.experiment_type = ExperimentType.MULTI_ARMED_BANDIT) then
                     v.arm_pulls + 1
                   else v.arm_pulls }
      else v with hfdef
    have hid : ∀ v, (f v).id = v.id := by
      intro v
      by_cases h : v.id = vid <;> simp [hfdef, h]
    have hw : ∀ v, (f v).weight = v.weight := by
      intro v
      by_cases h : v.id = vid <;> simp [hfdef, h]
    set e2 : AdvancedExperiment :=
      { e with participant_assignments :=
                 assocInsert u.user_id vid e.participant_assignments,
               variants := bumpImpressions
                 (decide (e.experiment_type = ExperimentType.MULTI_ARMED_BANDIT)) vid
                 e.variants } with he2
    have hbump : e2.variants = e.variants.map f := rfl
    have hrand : getRandomAssignment md5 e u = vid := by
      rw [← getVariantAssignment_random md5 e u htype]
    have hsel2 : getVariantAssignment md5 e2 u = vid := by
      rw [getVariantAssignment_random md5 e2 u htype]
      exact (getRandomAssignment_map md5 u e f hid hw
        (assocInsert u.user_id vid e.participant_assignments)).trans hrand
    have hmem2 : e2.variants.any (fun v => v.id == vid) = true := by
      rw [hbump, any_map_id f hid]
      exact hmem
    have h2 := assign_success md5 e2 u vid hst helig htr hsel2 hne hmem2
    refine ⟨?_, ?_⟩
    · rw [h1]
      show (assignVariant md5 e2 u).1 = some vid
      rw [h2]
    · intro vid' hv
      rw [h1] at hv
      have hvv : vid' = vid := (Option.some.inj hv).symm
      subst hvv
      rw [h1]
      show impressionsOf (assignVariant md5 e2 u).2 vid = impressionsOf e vid + 2
      rw [h2]
      obtain ⟨w, hwmem, hwp⟩ := List.any_eq_true.mp hmem
      have hsome : (e.variants.find? (fun v => v.id == vid)).isSome = true :=
        List.find?_isSome.mpr ⟨w, hwmem, hwp⟩
      obtain ⟨w', hfind⟩ := Option.isSome_iff_exists.mp hsome
      have hfind' : e.variants.find? (fun v => v.id == vid) = some w' := hfind
      have hwid' : (w'.id == vid) = true := by
        simpa using List.find?_some hfind'
      have hbl : ∀ l, bumpImpressions
          (decide (e.experiment_type = ExperimentType.MULTI_ARMED_BANDIT)) vid l
          = l.map f := fun l => rfl
      simp only [impressionsOf, findVariant, hbl, findVariant_map f hid, hfind',
        Option.map_map]
      simp [hfdef, show w'.id = vid from by simpa using hwid']



lemma exC1_sel : getVariantAssignment hash7000 exC1 uPlain = "treatment" := by
  rw [getVariantAssignment_random hash7000 exC1 uPlain (Or.inl rfl)]
  simp only [getRandomAssignment, exC1, hash7000, cumulativeWalk, uPlain]
  norm_num

/-- C1 counterexample: in `exC1` the user "u1" already has a sticky assignment to
"control", yet `assign_variant` (with an MD5 stand-in hashing to bucket 0.70) returns
"treatment" — not the existing assignment — and increments the exposure counter of
"treatment", contradicting both halves of the claim's second clause. -/
theorem c1_counterexample :
    exC1.participant_assignments.lookup "u1" = some "control"
    ∧ (assignVariant hash7000 exC1 uPlain).1 = some "treatment"
    ∧ impressionsOf (assignVariant hash7000 exC1 uPlain).2 "treatment"
        = impressionsOf exC1 "treatment" + 1 := by
  have h := assign_success hash7000 exC1 uPlain "treatment" rfl rfl
    (traffic_all hash7000 exC1 uPlain rfl) exC1_sel (by decide) (by decide)
  refine ⟨rfl, ?_, ?_⟩
  · rw [h]
  · rw [h]
    simp only [impressionsOf, findVariant, bumpImpressions, exC1]
    simp

/-- C1 witness: the amended theorem applied at the concrete experiment `exC1`. -/
theorem c1_witness :
    (assignVariant hash7000 (assignVariant hash7000 exC1 uPlain).2 uPlain).1
      = (assignVariant hash7000 exC1 uPlain).1 :=
  (c1_thm hash7000 exC1 uPlain (Or.inl rfl)).1

/-- C8: for every variant with conversions at most exposures, the confidence interval
computed by the framework's `_calculate_confidence_interval` (and, for every
nonnegative critical value, by the engine's) satisfies
0 ≤ lower ≤ p ≤ upper ≤ 1, where p is the conversion proportion (0 when there are no
exposures). -/
theorem c8_thm :
    (∀ (e : AdvancedExperiment) (vid : String) (v : VariantConfiguration),
       findVariant e vid = some v → v.conversions ≤ v.impressions →
       0 ≤ (calculateConfidenceInterval e vid).1
       ∧ (calculateConfidenceInterval e vid).1
           ≤ (if 0 < v.impressions then (v.conversions : ℝ) / (v.impressions : ℝ) else 0)
       ∧ (if 0 < v.impressions then (v.conversions : ℝ) / (v.impressions : ℝ) else 0)
           ≤ (calculateConfidenceInterval e vid).2
       ∧ (calculateConfidenceInterval e vid).2 ≤ 1)
    ∧ (∀ (z : ℝ) (s t : ℕ), 0 ≤ z → s ≤ t →
       0 ≤ (engineConfidenceInterval z s t).1
       ∧ (engineConfidenceInterval z s t).1
           ≤ (if 0 < t then (s : ℝ) / (t : ℝ) else 0)
       ∧ (if 0 < t then (s : ℝ) / (t : ℝ) else 0) ≤ (engineConfidenceInterval z s t).2
       ∧ (engineConfidenceInterval z s t).2 ≤ 1) := by
  constructor
  · intro e vid v hf hc
    simp only [calculateConfidenceInterval, hf]
    by_cases h0 : v.impressions = 0
    · rw [if_pos h0, if_neg (by omega)]
      norm_num
    · have himp : 0 < v.impressions := Nat.pos_of_ne_zero h0
      have himpq : (0:ℚ) < (v.impressions : ℚ) := by exact_mod_cast himp
      have hp0 : (0:ℚ) ≤ (v.conversions : ℚ) / (v.impressions : ℚ) := by positivity
      have hp1 : (v.conversions : ℚ) / (v.impressions : ℚ) ≤ 1 := by
        rw [div_le_one himpq]
        exact_mod_cast hc
      have harg : (0:ℚ) ≤ (v.conversions : ℚ) / (v.impressions : ℚ)
          * (1 - (v.conversions : ℚ) / (v.impressions : ℚ)) / (v.impressions : ℚ) :=
        div_nonneg (mul_nonneg hp0 (by linarith)) (le_of_lt himpq)
      rw [if_neg h0, if_neg (not_lt.mpr harg), if_pos himp]
      have himpr : (0:ℝ) < (v.impressions : ℝ) := by exact_mod_cast himp
      refine ⟨le_max_left _ _, ?_, ?_, min_le_left _ _⟩
      · push_cast
        refine max_le (by positivity) ?_
        exact sub_le_self _ (mul_nonneg (by norm_num) (Real.sqrt_nonneg _))
      · push_cast
        refine le_min ?_ ?_
        · rw [div_le_one himpr]
          exact_mod_cast hc
        · exact le_add_of_nonneg_right
            (mul_nonneg (by norm_num) (Real.sqrt_nonneg _))
  · intro z s t hz hst
    simp only [engineConfidenceInterval]
    by_cases h0 : t = 0
    · rw [if_pos h0, if_neg (by omega)]
      norm_num
    · have ht : 0 < t := Nat.pos_of_ne_zero h0
      have htq : (0:ℚ) < (t : ℚ) := by exact_mod_cast ht
      have hp0 : (0:ℚ) ≤ (s : ℚ) / (t : ℚ) := by positivity
      have hp1 : (s : ℚ) / (t : ℚ) ≤ 1 := by
        rw [div_le_one htq]
        exact_mod_cast hst
      rw [if_neg h0, if_pos ht]
      have htr : (0:ℝ) < (t : ℝ) := by exact_mod_cast ht
      refine ⟨le_max_left _ _, ?_, ?_, min_le_left _ _⟩
      · push_cast
        refine max_le (by positivity) ?_
        exact sub_le_self _ (mul_nonneg hz (Real.sqrt_nonneg _))
      · push_cast
        refine le_min ?_ ?_
        · rw [div_le_one htr]
          exact_mod_cast hst
        · exact le_add_of_nonneg_right (mul_nonneg hz (Real.sqrt_nonneg _))

/-- C8 witness: the bounds theorem applied at the concrete variant with 3 conversions
in 10 exposures, and at the engine interval with z = 1.96. -/
theorem c8_witness :
    (0 ≤ (calculateConfidenceInterval exC8 "v").1
     ∧ (calculateConfidenceInterval exC8 "v").1
         ≤ (if 0 < vC8.impressions then (vC8.conversions : ℝ) / (vC8.impressions : ℝ) else 0)
     ∧ (if 0 < vC8.impressions then (vC8.conversions : ℝ) / (vC8.impressions : ℝ) else 0)
         ≤ (calculateConfidenceInterval exC8 "v").2
     ∧ (calculateConfidenceInterval exC8 "v").2 ≤ 1)
    ∧ (0 ≤ (engineConfidenceInterval 1.96 3 10).1
     ∧ (engineConfidenceInterval 1.96 3 10).1 ≤ (if 0 < 10 then ((3:ℕ) : ℝ) / ((10:ℕ) : ℝ) else 0)
     ∧ (if 0 < 10 then ((3:ℕ) : ℝ) / ((10:ℕ) : ℝ) else 0) ≤ (engineConfidenceInterval 1.96 3 10).2
     ∧ (engineConfidenceInterval 1.96 3 10).2 ≤ 1) :=
  ⟨c8_thm.1 exC8 "v" vC8 rfl (by decide),
   c8_thm.2 1.96 3 10 (by norm_num) (by decide)⟩

/-- C9 (amended): weight validation does not happen at creation.
`create_experiment` copies the variant weights through unchanged (never correcting
them); it is `start_experiment` that rejects — by returning False with the experiment
unchanged — any weight sum outside [0.99, 1.01]; the engine's `_validate_test_config`
raises for traffic splits summing outside [99.9, 100.1] percent. -/
theorem c9_thm :
    (∀ cfg : ExperimentConfig,
       (createExperiment cfg).variants.map (fun v => v.weight)
         = cfg.variants.map (fun s => s.weight))
    ∧ (∀ (e : AdvancedExperiment) (now : ℕ),
       1 / 100 < |((e.variants.map (fun v => v.weight)).sum) - 1| →
       startExperiment e now = (false, e))
    ∧ (∀ cfg : EngineTestConfiguration, 2 ≤ cfg.variants.length →
       1 / 10 < |((cfg.variants.map (fun v => v.traffic_split)).sum) - 100| →
       validateTestConfig cfg = Except.error "Traffic splits must sum to 100%") := by
  refine ⟨?_, ?_, ?_⟩
  · intro cfg
    simp [createExperiment]
  · intro e now h
    have hv : validateConfiguration e = false := by
      simp only [validateConfiguration, if_pos h]
    simp [startExperiment, hv]
  · intro cfg h2 h
    simp only [validateTestConfig, if_neg (by omega : ¬ cfg.variants.length < 2),
      if_pos h]

/-- C9 counterexample: `create_experiment` accepts the configuration `cfgC9` whose
weights sum to 0.7 — far outside [0.99, 1.01] — without raising; the created experiment
carries those weights, and only the later start call fails. -/
theorem c9_counterexample :
    (createExperiment cfgC9).variants.map (fun v => v.weight) = [1/2, 1/5]
    ∧ 1 / 100 < |((1:ℚ)/2 + 1/5) - 1|
    ∧ (startExperiment (createExperiment cfgC9) 0).1 = false := by
  have habs0 : (1:ℚ)/100 < |((1:ℚ)/2 + 1/5) - 1| := by
    rw [show ((1:ℚ)/2 + 1/5) - 1 = -(3/10) from by norm_num, abs_neg,
        abs_of_pos (by norm_num : (0:ℚ) < 3/10)]
    norm_num
  have hsum : (((createExperiment cfgC9).variants.map (fun v => v.weight)).sum : ℚ)
      = 7/10 := by
    show ((1:ℚ)/2 + (1/5 + 0)) = 7/10
    norm_num
  have habs : (1:ℚ)/100
      < |(((createExperiment cfgC9).variants.map (fun v => v.weight)).sum) - 1| := by
    rw [hsum, show (7:ℚ)/10 - 1 = -(3/10) from by norm_num, abs_neg,
        abs_of_pos (by norm_num : (0:ℚ) < 3/10)]
    norm_num
  have hv : validateConfiguration (createExperiment cfgC9) = false := by
    simp only [validateConfiguration, if_pos habs]
  refine ⟨rfl, habs0, ?_⟩
  simp [startExperiment, hv]

/-- C9 witness: the amended theorem applied to the experiment created from `cfgC9`. -/
theorem c9_witness :
    startExperiment (createExperiment cfgC9) 5 = (false, createExperiment cfgC9) := by
  refine c9_thm.2.1 (createExperiment cfgC9) 5 ?_
  rw [show (((createExperiment cfgC9).variants.map (fun v => v.weight)).sum : ℚ)
        = 7/10 from by show ((1:ℚ)/2 + (1/5 + 0)) = 7/10; norm_num,
      show (7:ℚ)/10 - 1 = -(3/10) from by norm_num, abs_neg,
      abs_of_pos (by norm_num : (0:ℚ) < 3/10)]
  norm_num



lemma pulls_map (g : VariantConfiguration → VariantConfiguration)
    (hid : ∀ v, (g v).id = v.id) (hp : ∀ v, (g v).arm_pulls = v.arm_pulls)
    (l : List VariantConfiguration) :
    (l.map g).map (fun v => (v.id, v.arm_pulls)) = l.map (fun v => (v.id, v.arm_pulls)) := by
  induction l with
  | nil => rfl
  | cons v t ih => simp [hid, hp, ih]

lemma guardrails_type (e : AdvancedExperiment) (now : ℕ) :
    (checkExperimentGuardrails e now).experiment_type = e.experiment_type := by
  simp only [checkExperimentGuardrails]
  split
  · rfl
  · split
    · split
      · split
        · split
          · split <;> rfl
          · rfl
        · rfl
      · rfl
    · rfl

lemma assign_pulls (md5 : String → ℕ) (e : AdvancedExperiment) (u : UserContext)
    (h : e.experiment_type ≠ ExperimentType.MULTI_ARMED_BANDIT) :
    pullsView (assignVariant md5 e u).2 = pullsView e := by
  have hb : decide (e.experiment_type = ExperimentType.MULTI_ARMED_BANDIT) = false :=
    decide_eq_false h
  simp only [assignVariant, hb]
  split_ifs <;> try rfl
  simp only [pullsView, bumpImpressions]
  exact pulls_map _ (fun v => by by_cases hv : v.id = getVariantAssignment md5 e u <;>
    simp [hv]) (fun v => by by_cases hv : v.id = getVariantAssignment md5 e u <;>
    simp [hv]) e.variants

lemma assign_type (md5 : String → ℕ) (e : AdvancedExperiment) (u : UserContext) :
    (assignVariant md5 e u).2.experiment_type = e.experiment_type := by
  simp only [assignVariant]
  split_ifs <;> rfl

lemma track_pulls (e : AdvancedExperiment) (uid ct : String) (val : ℚ) (now : ℕ) :
    pullsView (trackConversion e uid ct val now).2 = pullsView e := by
  rcases hl : e.participant_assignments.lookup uid with _ | vid
  · simp only [trackConversion, hl]
  · rcases hf : findVariant e vid with _ | w
    · simp only [trackConversion, hl, hf]
    · simp only [trackConversion, hl, hf, pullsView, guardrails_variants]
      exact pulls_map _ (fun v => by by_cases hv : v.id = vid <;> simp [hv])
        (fun v => by by_cases hv : v.id = vid <;> simp [hv]) e.variants

lemma track_type (e : AdvancedExperiment) (uid ct : String) (val : ℚ) (now : ℕ) :
    (trackConversion e uid ct val now).2.experiment_type = e.experiment_type := by
  rcases hl : e.participant_assignments.lookup uid with _ | vid
  · simp only [trackConversion, hl]
  · rcases hf : findVariant e vid with _ | w
    · simp only [trackConversion, hl, hf]
    · simp only [trackConversion, hl, hf]
      exact guardrails_type _ now

lemma applyOp_pulls (e : AdvancedExperiment) (op : ExperimentOp)
    (h : e.experiment_type ≠ ExperimentType.MULTI_ARMED_BANDIT) :
    pullsView (applyOp e op) = pullsView e := by
  cases op with
  | assign md5 u => exact assign_pulls md5 e u h
  | track uid ct v now => exact track_pulls e uid ct v now
  | stop now r => rfl
  | metrics => rfl
  | winner => rfl
  | getConfig md5 u => exact assign_pulls md5 e u h

lemma applyOp_type (e : AdvancedExperiment) (op : ExperimentOp) :
    (applyOp e op).experiment_type = e.experiment_type := by
  cases op with
  | assign md5 u => exact assign_type md5 e u
  | track uid ct v now => exact track_type e uid ct v now
  | stop now r => rfl
  | metrics => rfl
  | winner => rfl
  | getConfig md5 u => exact assign_type md5 e u

lemma applyOps_pulls :
    ∀ (ops : List ExperimentOp) (e : AdvancedExperiment),
    e.experiment_type ≠ ExperimentType.MULTI_ARMED_BANDIT →
    pullsView (applyOps e ops) = pullsView e := by
  intro ops
  induction ops with
  | nil => intro e h; rfl
  | cons op rest ih =>
    intro e h
    rw [applyOps]
    rw [ih (applyOp e op) (by rw [applyOp_type]; exact h)]
    exact applyOp_pulls e op h

lemma getVariantAssignment_personalized (md5 : String → ℕ) (e : AdvancedExperiment)
    (u : UserContext) (h : e.experiment_type = ExperimentType.PERSONALIZED) :
    getVariantAssignment md5 e u = getPersonalizedAssignment e u := by
  unfold getVariantAssignment
  rw [h]

/-- C10: for every experiment whose type is not MULTI_ARMED_BANDIT, no runtime
operation ever changes any variant's arm-pull counter; consequently a PERSONALIZED
experiment whose user segment has no configured override stays permanently in the
bandit warm-up branch, and every eligible assignment call returns the first variant in
variant order. -/
theorem c10_thm (e : AdvancedExperiment)
    (htype : e.experiment_type ≠ ExperimentType.MULTI_ARMED_BANDIT) :
    (∀ ops : List ExperimentOp, pullsView (applyOps e ops) = pullsView e)
    ∧ (e.experiment_type = ExperimentType.PERSONALIZED →
       ∀ (md5 : String → ℕ) (u : UserContext) (v0 : VariantConfiguration)
         (rest : List VariantConfiguration),
         e.variants = v0 :: rest → v0.id ≠ "" →
         e.status = ExperimentStatus.RUNNING →
         isUserEligible e u = true →
         isInTrafficAllocation md5 e u = true →
         e.segment_strategies.lookup (determineUserSegment u) = none →
         (∀ w ∈ e.variants, w.arm_pulls = 0) →
         (assignVariant md5 e u).1 = some v0.id) := by
  constructor
  · intro ops
    exact applyOps_pulls ops e htype
  · intro hpers md5 u v0 rest hvar hne hst helig htr hseg hzero
    have hsum : (e.variants.map (fun v => v.arm_pulls)).sum = 0 := by
      apply List.sum_eq_zero
      intro x hx
      obtain ⟨w, hw, rfl⟩ := List.mem_map.mp hx
      exact hzero w hw
    have hv0 : v0.arm_pulls = 0 := hzero v0 (hvar ▸ List.mem_cons_self v0 rest)
    have hfind : e.variants.find? (fun v => v.arm_pulls < 10) = some v0 := by
      rw [hvar]
      simp [List.find?, hv0]
    have hgb : getBanditAssignment e = v0.id := by
      simp only [getBanditAssignment]
      rw [if_pos (by rw [hsum, hvar]; simp)]
      rw [hfind]
    have hsel : getVariantAssignment md5 e u = v0.id := by
      rw [getVariantAssignment_personalized md5 e u hpers]
      simp only [getPersonalizedAssignment, hseg]
      exact hgb
    have hmem : e.variants.any (fun v => v.id == v0.id) = true := by
      rw [hvar]
      simp
    rw [assign_success md5 e u v0.id hst helig htr hsel hne hmem]

/-- C10 witness: the invariants applied at the concrete PERSONALIZED experiment
`exC10'` with a stop and a metrics operation, and one assignment call returning the
first variant "control". -/
theorem c10_witness :
    pullsView (applyOps exC10' [ExperimentOp.stop 3 "done", ExperimentOp.metrics])
        = pullsView exC10'
    ∧ (assignVariant hash0 exC10' uPlain).1 = some "control" := by
  have h := c10_thm exC10' (by decide)
  refine ⟨h.1 [ExperimentOp.stop 3 "done", ExperimentOp.metrics], ?_⟩
  have h2 := h.2 rfl hash0 uPlain vC10a [vC10b] rfl (by decide) rfl rfl
    (traffic_all hash0 exC10' uPlain rfl) rfl (by decide)
  simpa using h2

/-- C7 (amended): while the total pull count is below `len(variants) * 10`, the
warm-up branch of `_get_bandit_assignment` force-selects the first variant in variant
order whose pull count is below 10 (not the least-pulled arm); consequently, starting
from the fresh 3-arm bandit `exC7`, the first 30 assignments return arm v1 ten times,
then v2 ten times, then v3 ten times — each arm exactly 10 times before any
UCB-scoring-based pick occurs. -/
theorem c7_thm :
    (∀ (e : AdvancedExperiment) (v : VariantConfiguration),
        (e.variants.map (fun w => w.arm_pulls)).sum < e.variants.length * 10 →
        e.variants.find? (fun w => w.arm_pulls < 10) = some v →
        getBanditAssignment e = v.id)
    ∧ (runAssigns hash0 uPlain exC7 30).1
        = List.replicate 10 (some "v1") ++ List.replicate 10 (some "v2")
          ++ List.replicate 10 (some "v3")
    ∧ pullsView (runAssigns hash0 uPlain exC7 30).2
        = [("v1", 10), ("v2", 10), ("v3", 10)] := by
  refine ⟨?_, run30.1, run30.2⟩
  intro e v hw hf
  simp only [getBanditAssignment, if_pos hw, hf]

/-- C7 counterexample: in the mid-warm-up state `exC7mid` (pulls 5, 0, 0) the bandit
assignment returns arm v1 with 5 pulls although arm v2 has strictly fewer pulls (0), so
the selection is not the least-pulled arm. -/
theorem c7_counterexample :
    getBanditAssignment exC7mid = "v1"
    ∧ armPullsOf exC7mid "v1" = 5
    ∧ armPullsOf exC7mid "v2" = 0 := by
  refine ⟨by decide, by decide, by decide⟩

/-- C7 witness: the warm-up clause of the amended theorem applied at the concrete
state `exC7mid`. -/
theorem c7_witness :
    getBanditAssignment exC7mid = "v1" ∧ 5 < exC7mid.variants.length * 10 := by
  constructor
  · have h := c7_thm.1 exC7mid
      { id := "v1", name := "v1", weight := 1/3, arm_pulls := 5, impressions := 5 }
      (by decide) rfl
    exact h
  · decide

end ARO
